import Mathlib

/-! IPv4 network address translation (`src/net/nat/nat.cpp`).

A shallow embedding of the NAT translators of IncludeOS and of the
incremental checksum engine they call, followed by theorems about them.

Conventions of the embedding.

* Every integer is a `Nat`; the width of the C++ type is recorded in
  `Packet.wf` and `Socket.wf`.
* A field holds the value its C++ accessor returns: checksums and addresses
  are the raw 16/32-bit objects as they sit in the packet (network order in
  memory), ports are host-order numbers (`dst_port()` returns host order and
  the source converts with `htons` before a checksum update).
* A call mutates the packet in place and may stop at an `Expects`; it is
  embedded as a function to an `Outcome`: the status of the call together
  with the packet as it is left behind.
-/

namespace net
namespace nat

/-! ## Data model -/

/-- IP protocol number of ICMPv4 (`Protocol::ICMPv4`). -/
def Protocol.ICMPv4 : Nat := 1

/-- IP protocol number of TCP (`Protocol::TCP`). -/
def Protocol.TCP : Nat := 6

/-- IP protocol number of UDP (`Protocol::UDP`). -/
def Protocol.UDP : Nat := 17

/-- A socket: an IPv4 address (raw 32-bit object) and a port (host order). -/
structure Socket where
  address : Nat
  port : Nat
deriving DecidableEq, Repr

/-- Widths of the two components of a socket (`ip4::Addr`, `uint16_t`). -/
def Socket.wf (s : Socket) : Prop :=
  s.address < 4294967296 ∧ s.port < 65536

instance (s : Socket) : Decidable s.wf := by
  unfold Socket.wf; infer_instance

/-- An IPv4 packet seen through its field accessors.  The IP header fields
come first; `src_port`, `dst_port`, `l4_checksum` and `l4_rest` are the
transport sub-view (TCP or UDP) over the same packet: the two ports, the
transport checksum, and the remaining 16-bit words of the transport header
and payload (the payload zero-padded to a whole word). -/
@[ext] structure Packet where
  version : Nat
  ihl : Nat
  tos : Nat
  tot_len : Nat
  id : Nat
  frag_off_flags : Nat
  ttl : Nat
  protocol : Nat
  ip_checksum : Nat
  ip_src : Nat
  ip_dst : Nat
  ip_options : List Nat
  src_port : Nat
  dst_port : Nat
  l4_checksum : Nat
  l4_rest : List Nat
deriving DecidableEq, Repr

/-- Widths of the fields of a packet, as fixed by the C++ types behind the
accessors. -/
def Packet.wf (p : Packet) : Prop :=
  p.version < 16 ∧ p.ihl < 16 ∧ p.tos < 256 ∧ p.tot_len < 65536 ∧ p.id < 65536 ∧
  p.frag_off_flags < 65536 ∧ p.ttl < 256 ∧ p.protocol < 256 ∧
  p.ip_checksum < 65536 ∧ p.ip_src < 4294967296 ∧ p.ip_dst < 4294967296 ∧
  (∀ w ∈ p.ip_options, w < 65536) ∧
  p.src_port < 65536 ∧ p.dst_port < 65536 ∧ p.l4_checksum < 65536 ∧
  (∀ w ∈ p.l4_rest, w < 65536)

instance (p : Packet) : Decidable p.wf := by
  unfold Packet.wf; infer_instance

/-- The version nibble of an IPv4 header is 4. -/
def Packet.is_ipv4 (p : Packet) : Prop := p.version = 4

instance (p : Packet) : Decidable p.is_ipv4 := by
  unfold Packet.is_ipv4; infer_instance

/-- Accessor `ip_protocol()`. -/
def Packet.ip_protocol (p : Packet) : Nat := p.protocol

/-- Mutator `set_ip_checksum`. -/
def Packet.set_ip_checksum (p : Packet) (sum : Nat) : Packet :=
  { p with ip_checksum := sum }

/-- Mutator `set_ip_src`. -/
def Packet.set_ip_src (p : Packet) (addr : Nat) : Packet :=
  { p with ip_src := addr }

/-- Mutator `set_ip_dst`. -/
def Packet.set_ip_dst (p : Packet) (addr : Nat) : Packet :=
  { p with ip_dst := addr }

/-- Mutator `set_src_port` of the transport view. -/
def Packet.set_src_port (p : Packet) (port : Nat) : Packet :=
  { p with src_port := port }

/-- Mutator `set_dst_port` of the transport view. -/
def Packet.set_dst_port (p : Packet) (port : Nat) : Packet :=
  { p with dst_port := port }

/-- Accessor `tcp_checksum()` of `tcp::Packet`. -/
def Packet.tcp_checksum (p : Packet) : Nat := p.l4_checksum

/-- Accessor for the checksum of `PacketUDP`. -/
def Packet.udp_checksum (p : Packet) : Nat := p.l4_checksum

/-- Mutator `set_checksum` of `tcp::Packet`. -/
def Packet.set_checksum (p : Packet) (sum : Nat) : Packet :=
  { p with l4_checksum := sum }

/-- Accessor `source()` of `tcp::Packet`. -/
def Packet.source (p : Packet) : Socket := ⟨p.ip_src, p.src_port⟩

/-- Accessor `destination()` of `tcp::Packet`. -/
def Packet.destination (p : Packet) : Socket := ⟨p.ip_dst, p.dst_port⟩

/-- Mutator `set_source` of `tcp::Packet`. -/
def Packet.set_source (p : Packet) (s : Socket) : Packet :=
  (p.set_ip_src s.address).set_src_port s.port

/-- Mutator `set_destination` of `tcp::Packet`. -/
def Packet.set_destination (p : Packet) (s : Socket) : Packet :=
  (p.set_ip_dst s.address).set_dst_port s.port

/-- How a call ended: it ran to completion, or an `Expects` stopped it. -/
inductive Status where
  | ok
  | expects_failed
deriving DecidableEq, Repr

/-- Result of a call on a packet held by reference: the status and the
packet as the call leaves it. -/
structure Outcome where
  status : Status
  pkt : Packet
deriving DecidableEq, Repr

/-! ## Incremental checksum engine -/

/-- Complement of a 16-bit word, `~x & 0xFFFF`. -/
def ones_complement (x : Nat) : Nat := 65535 - x % 65536

/-- One's-complement addition of two 16-bit words: add, then fold the carry
out of bit 16 back into the low end (end-around carry). -/
def ones_complement_add (a b : Nat) : Nat := (a + b) % 65536 + (a + b) / 65536

/-- One's-complement sum of a sequence of 16-bit words. -/
def ones_complement_sum (ws : List Nat) : Nat := ws.foldl ones_complement_add 0

/-- Checksum of a coverage region computed from scratch: the complement of
the one's-complement sum of its words. -/
def checksum (ws : List Nat) : Nat := ones_complement (ones_complement_sum ws)

/-- Modelled from the spec: `checksum_adjust<uint16_t>` of
`net/inet_common.hpp`, which is not part of the sources at hand.  The spec
(4.3) gives the RFC 1624 update for one 16-bit word: complement the current
checksum, add the complement of the old word and the new word with
end-around carry, complement the result. -/
def checksum_adjust16 (chksum old_word new_word : Nat) : Nat :=
  ones_complement
    (ones_complement_add
      (ones_complement_add (ones_complement chksum) (ones_complement old_word))
      new_word)

/-- Modelled from the spec: `checksum_adjust<ip4::Addr>` of
`net/inet_common.hpp`, which is not part of the sources at hand.  The spec
(4.3) treats a 32-bit quantity as two concatenated 16-bit words and applies
the one-word update once per word, each application starting from the
checksum the previous one produced. -/
def checksum_adjust32 (chksum old_value new_value : Nat) : Nat :=
  checksum_adjust16
    (checksum_adjust16 chksum (old_value % 65536) (new_value % 65536))
    (old_value / 65536 % 65536) (new_value / 65536 % 65536)

/-- Host to network byte order for 16 bits on the little-endian machines
IncludeOS runs on: the two bytes are swapped. -/
def htons (x : Nat) : Nat := x % 256 * 256 + x / 256 % 256

/-! ## The translators of `nat.cpp` -/

/-- Translation of `recalc_ip_checksum`. -/
def recalc_ip_checksum (pkt : Packet) (old_addr new_addr : Nat) : Packet :=
  let ip_sum := pkt.ip_checksum
  let ip_sum := checksum_adjust32 ip_sum old_addr new_addr
  pkt.set_ip_checksum ip_sum

/-- Translation of `recalc_tcp_checksum`. -/
def recalc_tcp_checksum (pkt : Packet) (osock nsock : Socket) : Packet :=
  let old_addr := osock.address
  let new_addr := nsock.address
  let pkt := recalc_ip_checksum pkt old_addr new_addr
  let tcp_sum := pkt.tcp_checksum
  let tcp_sum := checksum_adjust32 tcp_sum old_addr new_addr
  let old_port := htons osock.port
  let new_port := htons nsock.port
  let tcp_sum := checksum_adjust16 tcp_sum old_port new_port
  pkt.set_checksum tcp_sum

/-- Translation of `recalc_udp_checksum`: the IP checksum only. -/
def recalc_udp_checksum (pkt : Packet) (osock nsock : Socket) : Packet :=
  let old_addr := osock.address
  let new_addr := nsock.address
  recalc_ip_checksum pkt old_addr new_addr

/-- Translation of `tcp_snat(IP4::IP_packet&, Socket)`. -/
def tcp_snat (p : Packet) (new_sock : Socket) : Outcome :=
  if p.ip_protocol = Protocol.TCP then
    let pkt := recalc_tcp_checksum p p.source new_sock
    ⟨Status.ok, pkt.set_source new_sock⟩
  else ⟨Status.expects_failed, p⟩

/-- Translation of `tcp_dnat(IP4::IP_packet&, Socket)`. -/
def tcp_dnat (p : Packet) (new_sock : Socket) : Outcome :=
  if p.ip_protocol = Protocol.TCP then
    let pkt := recalc_tcp_checksum p p.destination new_sock
    ⟨Status.ok, pkt.set_destination new_sock⟩
  else ⟨Status.expects_failed, p⟩

/-- Translation of `tcp_dnat(IP4::IP_packet&, const ip4::Addr)`. -/
def tcp_dnat_addr (p : Packet) (new_addr : Nat) : Outcome :=
  if p.ip_protocol = Protocol.TCP then
    let old_addr := p.ip_dst
    let pkt := recalc_ip_checksum p old_addr new_addr
    let tcp_sum := pkt.tcp_checksum
    let tcp_sum := checksum_adjust32 tcp_sum old_addr new_addr
    let pkt := pkt.set_checksum tcp_sum
    ⟨Status.ok, pkt.set_ip_dst new_addr⟩
  else ⟨Status.expects_failed, p⟩

/-- Translation of `tcp_dnat(IP4::IP_packet&, const uint16_t)`. -/
def tcp_dnat_port (p : Packet) (new_port : Nat) : Outcome :=
  if p.ip_protocol = Protocol.TCP then
    let tcp_sum := p.tcp_checksum
    let old_port := htons p.dst_port
    let tmp_port := htons new_port
    let tcp_sum := checksum_adjust16 tcp_sum old_port tmp_port
    let pkt := p.set_checksum tcp_sum
    ⟨Status.ok, pkt.set_dst_port new_port⟩
  else ⟨Status.expects_failed, p⟩

/-- Translation of `udp_snat(IP4::IP_packet&, Socket)`. -/
def udp_snat (p : Packet) (new_sock : Socket) : Outcome :=
  if p.ip_protocol = Protocol.UDP then
    let old_sock : Socket := ⟨p.ip_src, p.src_port⟩
    let pkt := recalc_udp_checksum p old_sock new_sock
    let pkt := pkt.set_ip_src new_sock.address
    ⟨Status.ok, pkt.set_src_port new_sock.port⟩
  else ⟨Status.expects_failed, p⟩

/-- Translation of `udp_dnat(IP4::IP_packet&, Socket)`. -/
def udp_dnat (p : Packet) (new_sock : Socket) : Outcome :=
  if p.ip_protocol = Protocol.UDP then
    let old_sock : Socket := ⟨p.ip_dst, p.dst_port⟩
    let pkt := recalc_udp_checksum p old_sock new_sock
    let pkt := pkt.set_ip_dst new_sock.address
    ⟨Status.ok, pkt.set_dst_port new_sock.port⟩
  else ⟨Status.expects_failed, p⟩

/-- Translation of `udp_dnat(IP4::IP_packet&, const ip4::Addr)`. -/
def udp_dnat_addr (p : Packet) (new_addr : Nat) : Outcome :=
  if p.ip_protocol = Protocol.UDP then
    let old_addr := p.ip_dst
    let pkt := recalc_ip_checksum p old_addr new_addr
    ⟨Status.ok, pkt.set_ip_dst new_addr⟩
  else ⟨Status.expects_failed, p⟩

/-- Translation of `udp_dnat(IP4::IP_packet&, const uint16_t)`. -/
def udp_dnat_port (p : Packet) (port : Nat) : Outcome :=
  if p.ip_protocol = Protocol.UDP then
    ⟨Status.ok, p.set_dst_port port⟩
  else ⟨Status.expects_failed, p⟩

/-- Translation of `icmp_snat`: no `Expects`, no view of the transport. -/
def icmp_snat (pkt : Packet) (addr : Nat) : Outcome :=
  let pkt1 := recalc_ip_checksum pkt pkt.ip_src addr
  ⟨Status.ok, pkt1.set_ip_src addr⟩

/-- Translation of `icmp_dnat`: no `Expects`, no view of the transport. -/
def icmp_dnat (pkt : Packet) (addr : Nat) : Outcome :=
  let pkt1 := recalc_ip_checksum pkt pkt.ip_dst addr
  ⟨Status.ok, pkt1.set_ip_dst addr⟩

/-- Translation of the dispatcher `snat(IP4::IP_packet&, Socket)`. -/
def snat (pkt : Packet) (src_socket : Socket) : Outcome :=
  if pkt.ip_protocol = Protocol.TCP then tcp_snat pkt src_socket
  else if pkt.ip_protocol = Protocol.UDP then udp_snat pkt src_socket
  else ⟨Status.ok, pkt⟩

/-- Translation of the dispatcher `dnat(IP4::IP_packet&, Socket)`. -/
def dnat (pkt : Packet) (dst_socket : Socket) : Outcome :=
  if pkt.ip_protocol = Protocol.TCP then tcp_dnat pkt dst_socket
  else if pkt.ip_protocol = Protocol.UDP then udp_dnat pkt dst_socket
  else ⟨Status.ok, pkt⟩

/-- Translation of the dispatcher `dnat(IP4::IP_packet&, const ip4::Addr)`. -/
def dnat_addr (pkt : Packet) (new_addr : Nat) : Outcome :=
  if pkt.ip_protocol = Protocol.TCP then tcp_dnat_addr pkt new_addr
  else if pkt.ip_protocol = Protocol.UDP then udp_dnat_addr pkt new_addr
  else if pkt.ip_protocol = Protocol.ICMPv4 then icmp_dnat pkt new_addr
  else ⟨Status.ok, pkt⟩

/-- Translation of the dispatcher `dnat(IP4::IP_packet&, const uint16_t)`. -/
def dnat_port (pkt : Packet) (new_port : Nat) : Outcome :=
  if pkt.ip_protocol = Protocol.TCP then tcp_dnat_port pkt new_port
  else if pkt.ip_protocol = Protocol.UDP then udp_dnat_port pkt new_port
  else ⟨Status.ok, pkt⟩

/-! ## Checksums recomputed from scratch -/

/-- The 16-bit words of the IP header as they are summed for the header
checksum: the checksum field itself counts as zero. -/
def ip_header_words (p : Packet) : List Nat :=
  [p.version * 16 + p.ihl + 256 * p.tos, p.tot_len, p.id, p.frag_off_flags,
   p.ttl + 256 * p.protocol, 0,
   p.ip_src % 65536, p.ip_src / 65536 % 65536,
   p.ip_dst % 65536, p.ip_dst / 65536 % 65536] ++ p.ip_options

/-- IP header checksum recomputed from scratch over the header as stored. -/
def compute_ip_checksum (p : Packet) : Nat := checksum (ip_header_words p)

/-- Length in bytes of the transport segment: total length less the header. -/
def l4_length (p : Packet) : Nat := (htons p.tot_len - 4 * p.ihl) % 65536

/-- The 16-bit words covered by the TCP/UDP checksum: the pseudo-header
(both addresses, zero and protocol, segment length), then the segment with
its two ports, its checksum field counted as zero, and all its other
words. -/
def l4_checksum_words (p : Packet) : List Nat :=
  [p.ip_src % 65536, p.ip_src / 65536 % 65536,
   p.ip_dst % 65536, p.ip_dst / 65536 % 65536,
   256 * p.protocol, htons (l4_length p),
   htons p.src_port, htons p.dst_port, 0] ++ p.l4_rest

/-- Transport checksum recomputed from scratch over pseudo-header and
segment as stored. -/
def compute_l4_checksum (p : Packet) : Nat := checksum (l4_checksum_words p)

/-- The stored IP header checksum is the one a recomputation gives. -/
def ip_checksum_valid (p : Packet) : Prop := p.ip_checksum = compute_ip_checksum p

/-- The stored TCP checksum is the one a recomputation gives. -/
def tcp_checksum_valid (p : Packet) : Prop := p.tcp_checksum = compute_l4_checksum p

instance (p : Packet) : Decidable (ip_checksum_valid p) := by
  unfold ip_checksum_valid; infer_instance

instance (p : Packet) : Decidable (tcp_checksum_valid p) := by
  unfold tcp_checksum_valid; infer_instance

/-- Closed form of one's-complement summation used in the proofs: the value
in `0..65535` that a sum of 16-bit words folds to (0 only for total 0). -/
def fold16 (t : Nat) : Nat := t - 65535 * ((t - 1) / 65535)

/-- Sum of the IP header words that no translation writes. -/
def ip_rest_sum (p : Packet) : Nat :=
  p.version * 16 + p.ihl + 256 * p.tos + p.tot_len + p.id + p.frag_off_flags
    + (p.ttl + 256 * p.protocol) + p.ip_options.sum

/-- Sum of the pseudo-header and segment words that no translation writes. -/
def l4_rest_sum (p : Packet) : Nat :=
  256 * p.protocol + htons (l4_length p) + p.l4_rest.sum

/-- Sum of the two 16-bit words of a 32-bit object. -/
def words32 (a : Nat) : Nat := a % 65536 + a / 65536 % 65536

/-- The TCP packet of the scenario of the spec (section 8): source
10.0.0.5:4000, destination 10.0.0.1:80, a 20-byte header without options,
both checksums correct. -/
def scenario_tcp : Packet :=
  { version := 4, ihl := 5, tos := 0, tot_len := 10240, id := 4660,
    frag_off_flags := 64, ttl := 64, protocol := 6, ip_checksum := 47346,
    ip_src := 83886090, ip_dst := 16777226, ip_options := [],
    src_port := 4000, dst_port := 80, l4_checksum := 60555,
    l4_rest := [0, 256, 0, 0, 592, 65535, 0] }

/-- The socket 203.0.113.9:50000 of the scenario of the spec. -/
def scenario_socket : Socket := ⟨158400715, 50000⟩

/-- A UDP packet for the same addresses and ports, both checksums correct. -/
def scenario_udp : Packet :=
  { version := 4, ihl := 5, tos := 0, tot_len := 8192, id := 4660,
    frag_off_flags := 64, ttl := 64, protocol := 17, ip_checksum := 46578,
    ip_src := 83886090, ip_dst := 16777226, ip_options := [],
    src_port := 4000, dst_port := 80, l4_checksum := 3594,
    l4_rest := [3072, 26984, 26985] }

/-- An ICMPv4 packet between the same addresses, IP checksum correct. -/
def scenario_icmp : Packet :=
  { version := 4, ihl := 5, tos := 0, tot_len := 7168, id := 4660,
    frag_off_flags := 64, ttl := 64, protocol := 1, ip_checksum := 51698,
    ip_src := 83886090, ip_dst := 16777226, ip_options := [],
    src_port := 8, dst_port := 0, l4_checksum := 0, l4_rest := [1, 256] }

/-- The ICMPv4 packet of the scenario with `0xFFFF` stored as IP checksum. -/
def icmp_ip_sum_ffff : Packet := { scenario_icmp with ip_checksum := 65535 }

/-- The UDP packet of the scenario with `0xFFFF` stored as IP checksum. -/
def udp_ip_sum_ffff : Packet := { scenario_udp with ip_checksum := 65535 }

/-- The TCP packet of the scenario with `0xFFFF` stored as IP checksum. -/
def tcp_ip_sum_ffff : Packet := { scenario_tcp with ip_checksum := 65535 }

/-- The TCP packet of the scenario with `0xFFFF` stored as TCP checksum. -/
def tcp_sum_ffff : Packet := { scenario_tcp with l4_checksum := 65535 }

/-- A packet of a protocol that is none of TCP, UDP, ICMPv4 (47, GRE). -/
def scenario_gre : Packet := { scenario_icmp with protocol := 47 }

/-- What a 32-bit update adds to the complemented checksum. -/
def delta32 (o n : Nat) : Nat :=
  (65535 - o % 65536) + n % 65536 + (65535 - o / 65536 % 65536) + n / 65536 % 65536

/-! ## Arithmetic of the engine -/

theorem fold16_le (t : Nat) : fold16 t ≤ 65535 := by
  unfold fold16; omega

theorem fold16_of_le (t : Nat) (h : t ≤ 65535) : fold16 t = t := by
  unfold fold16; omega

theorem fold16_fold16_add (a b : Nat) : fold16 (fold16 a + b) = fold16 (a + b) := by
  unfold fold16; omega

theorem fold16_add_wrap (t : Nat) (h : 0 < t) : fold16 (t + 65535) = fold16 t := by
  unfold fold16; omega

theorem ones_complement_add_eq (a b : Nat) (ha : a ≤ 65535) (hb : b ≤ 65535) :
    ones_complement_add a b = fold16 (a + b) := by
  unfold ones_complement_add fold16; omega

theorem checksum_adjust16_eq (c m n : Nat) (hc : c ≤ 65535) (hm : m ≤ 65535)
    (hn : n ≤ 65535) :
    checksum_adjust16 c m n = 65535 - fold16 ((65535 - c) + (65535 - m) + n) := by
  have h1 : ones_complement c = 65535 - c := by unfold ones_complement; omega
  have h2 : ones_complement m = 65535 - m := by unfold ones_complement; omega
  have h3 := fold16_le ((65535 - c) + (65535 - m))
  have h4 := fold16_le ((65535 - c) + (65535 - m) + n)
  unfold checksum_adjust16
  rw [h1, h2, ones_complement_add_eq (65535 - c) (65535 - m) (by omega) (by omega),
    ones_complement_add_eq _ _ h3 hn, fold16_fold16_add]
  unfold ones_complement; omega

theorem checksum_adjust16_le (c m n : Nat) : checksum_adjust16 c m n ≤ 65535 := by
  unfold checksum_adjust16 ones_complement; omega

theorem checksum_adjust32_le (c o n : Nat) : checksum_adjust32 c o n ≤ 65535 := by
  unfold checksum_adjust32; exact checksum_adjust16_le _ _ _

theorem checksum_adjust32_eq (c o n : Nat) (hc : c ≤ 65535) :
    checksum_adjust32 c o n =
      65535 - fold16 ((65535 - c) + (65535 - o % 65536) + n % 65536
        + (65535 - o / 65536 % 65536) + n / 65536 % 65536) := by
  unfold checksum_adjust32
  rw [checksum_adjust16_eq _ _ _ (checksum_adjust16_le _ _ _) (by omega) (by omega),
    checksum_adjust16_eq c _ _ hc (by omega) (by omega)]
  have h := fold16_le ((65535 - c) + (65535 - o % 65536) + n % 65536)
  have e : 65535 - (65535 - fold16 ((65535 - c) + (65535 - o % 65536) + n % 65536))
      = fold16 ((65535 - c) + (65535 - o % 65536) + n % 65536) := by omega
  rw [e, Nat.add_assoc (fold16 _), fold16_fold16_add]
  congr 2
  omega

/-- One word of a region is replaced: the update gives the checksum of the
changed region, provided the changed region has a non-zero word. `r` is the
sum of the words that stay. -/
theorem checksum_adjust16_region (c r m n : Nat) (hm : m ≤ 65535) (hn : n ≤ 65535)
    (hc : c = 65535 - fold16 (r + m)) (hpos : 0 < r + n) :
    checksum_adjust16 c m n = 65535 - fold16 (r + n) := by
  have h := fold16_le (r + m)
  rw [checksum_adjust16_eq c m n (by omega) hm hn, hc]
  have e : 65535 - (65535 - fold16 (r + m)) = fold16 (r + m) := by omega
  rw [e, Nat.add_assoc (fold16 _), fold16_fold16_add]
  have e2 : r + m + (65535 - m + n) = (r + n) + 65535 := by omega
  rw [e2, fold16_add_wrap _ hpos]

/-- Two words of a region are replaced by a 32-bit update. -/
theorem checksum_adjust32_region (c r o n : Nat)
    (hc : c = 65535 - fold16 (r + o % 65536 + o / 65536 % 65536))
    (hpos : 0 < r + n % 65536 + n / 65536 % 65536) :
    checksum_adjust32 c o n = 65535 - fold16 (r + n % 65536 + n / 65536 % 65536) := by
  have h := fold16_le (r + o % 65536 + o / 65536 % 65536)
  rw [checksum_adjust32_eq c o n (by omega), hc]
  have e : 65535 - (65535 - fold16 (r + o % 65536 + o / 65536 % 65536))
      = fold16 (r + o % 65536 + o / 65536 % 65536) := by omega
  rw [e]
  have e1 : fold16 (r + o % 65536 + o / 65536 % 65536) + (65535 - o % 65536) + n % 65536
        + (65535 - o / 65536 % 65536) + n / 65536 % 65536
      = fold16 (r + o % 65536 + o / 65536 % 65536) + ((65535 - o % 65536) + n % 65536
        + (65535 - o / 65536 % 65536) + n / 65536 % 65536) := by omega
  rw [e1, fold16_fold16_add]
  have e2 : r + o % 65536 + o / 65536 % 65536 + ((65535 - o % 65536) + n % 65536
        + (65535 - o / 65536 % 65536) + n / 65536 % 65536)
      = (r + n % 65536 + n / 65536 % 65536 + 65535) + 65535 := by omega
  rw [e2, fold16_add_wrap _ (by omega), fold16_add_wrap _ hpos]

theorem foldl_ones_complement_add (ws : List Nat) (hws : ∀ w ∈ ws, w < 65536) :
    ∀ acc, acc ≤ 65535 → ws.foldl ones_complement_add acc = fold16 (acc + ws.sum) := by
  induction ws with
  | nil => intro acc h; simp [fold16_of_le acc h]
  | cons w ws ih =>
    intro acc h
    have hw : w ≤ 65535 := by
      have := hws w (List.mem_cons_self _ _); omega
    have hrest : ∀ v ∈ ws, v < 65536 := fun v hv => hws v (List.mem_cons_of_mem _ hv)
    rw [List.foldl_cons, ones_complement_add_eq acc w h hw,
      ih hrest _ (fold16_le _), fold16_fold16_add, List.sum_cons, Nat.add_assoc]

theorem checksum_eq (ws : List Nat) (hws : ∀ w ∈ ws, w < 65536) :
    checksum ws = 65535 - fold16 ws.sum := by
  unfold checksum ones_complement_sum
  rw [foldl_ones_complement_add ws hws 0 (by omega)]
  have := fold16_le (0 + ws.sum)
  unfold ones_complement
  rw [Nat.zero_add] at *
  omega

/-! ## Well-formedness is kept by the mutators -/

theorem htons_lt (x : Nat) : htons x < 65536 := by
  unfold htons; omega

theorem wf_set_ip_checksum (p : Packet) (c : Nat) (hp : p.wf) (hc : c ≤ 65535) :
    (p.set_ip_checksum c).wf := by
  obtain ⟨h1, h2, h3, h4, h5, h6, h7, h8, _, h10, h11, h12, h13, h14, h15, h16⟩ := hp
  exact ⟨h1, h2, h3, h4, h5, h6, h7, h8, by show c < 65536; omega, h10, h11, h12, h13,
    h14, h15, h16⟩

theorem wf_set_checksum (p : Packet) (c : Nat) (hp : p.wf) (hc : c ≤ 65535) :
    (p.set_checksum c).wf := by
  obtain ⟨h1, h2, h3, h4, h5, h6, h7, h8, h9, h10, h11, h12, h13, h14, _, h16⟩ := hp
  exact ⟨h1, h2, h3, h4, h5, h6, h7, h8, h9, h10, h11, h12, h13, h14,
    by show c < 65536; omega, h16⟩

theorem wf_set_ip_src (p : Packet) (a : Nat) (hp : p.wf) (ha : a < 4294967296) :
    (p.set_ip_src a).wf := by
  obtain ⟨h1, h2, h3, h4, h5, h6, h7, h8, h9, _, h11, h12, h13, h14, h15, h16⟩ := hp
  exact ⟨h1, h2, h3, h4, h5, h6, h7, h8, h9, ha, h11, h12, h13, h14, h15, h16⟩

theorem wf_set_ip_dst (p : Packet) (a : Nat) (hp : p.wf) (ha : a < 4294967296) :
    (p.set_ip_dst a).wf := by
  obtain ⟨h1, h2, h3, h4, h5, h6, h7, h8, h9, h10, _, h12, h13, h14, h15, h16⟩ := hp
  exact ⟨h1, h2, h3, h4, h5, h6, h7, h8, h9, h10, ha, h12, h13, h14, h15, h16⟩

theorem wf_set_src_port (p : Packet) (x : Nat) (hp : p.wf) (hx : x < 65536) :
    (p.set_src_port x).wf := by
  obtain ⟨h1, h2, h3, h4, h5, h6, h7, h8, h9, h10, h11, h12, _, h14, h15, h16⟩ := hp
  exact ⟨h1, h2, h3, h4, h5, h6, h7, h8, h9, h10, h11, h12, hx, h14, h15, h16⟩

theorem wf_set_dst_port (p : Packet) (x : Nat) (hp : p.wf) (hx : x < 65536) :
    (p.set_dst_port x).wf := by
  obtain ⟨h1, h2, h3, h4, h5, h6, h7, h8, h9, h10, h11, h12, h13, _, h15, h16⟩ := hp
  exact ⟨h1, h2, h3, h4, h5, h6, h7, h8, h9, h10, h11, h12, h13, hx, h15, h16⟩

theorem wf_recalc_ip_checksum (p : Packet) (o n : Nat) (hp : p.wf) :
    (recalc_ip_checksum p o n).wf :=
  wf_set_ip_checksum p _ hp (checksum_adjust32_le _ _ _)

/-! ## Recomputed checksums in closed form -/

theorem compute_ip_checksum_eq (p : Packet) (hp : p.wf) :
    compute_ip_checksum p
      = 65535 - fold16 (ip_rest_sum p + words32 p.ip_src + words32 p.ip_dst) := by
  obtain ⟨h1, h2, h3, h4, h5, h6, h7, h8, _, _, _, h12, _⟩ := hp
  unfold compute_ip_checksum
  rw [checksum_eq]
  · congr 2
    simp only [ip_header_words, ip_rest_sum, words32, List.sum_append, List.sum_cons,
      List.sum_nil]
    omega
  · intro w hw
    simp only [ip_header_words, List.mem_append, List.mem_cons, List.mem_singleton,
      List.not_mem_nil, or_false] at hw
    rcases hw with (h | h | h | h | h | h | h | h | h | h) | h
    all_goals first | exact h12 w h | omega

theorem compute_l4_checksum_eq (p : Packet) (hp : p.wf) :
    compute_l4_checksum p
      = 65535 - fold16 (l4_rest_sum p + words32 p.ip_src + words32 p.ip_dst
          + htons p.src_port + htons p.dst_port) := by
  obtain ⟨_, _, _, _, _, _, _, h8, _, _, _, _, _, _, _, h16⟩ := hp
  unfold compute_l4_checksum
  rw [checksum_eq]
  · congr 2
    simp only [l4_checksum_words, l4_rest_sum, words32, List.sum_append, List.sum_cons,
      List.sum_nil]
    omega
  · intro w hw
    have a1 := htons_lt (l4_length p)
    have a2 := htons_lt p.src_port
    have a3 := htons_lt p.dst_port
    simp only [l4_checksum_words, List.mem_append, List.mem_cons, List.mem_singleton,
      List.not_mem_nil, or_false] at hw
    rcases hw with (h | h | h | h | h | h | h | h | h) | h
    all_goals first | exact h16 w h | omega

/-! ## Validity of the checksums after a rewrite -/

theorem compl_fold16_congr (a b : Nat) (h : a = b) : 65535 - fold16 a = 65535 - fold16 b := by
  rw [h]

theorem checksum_adjust32_words (c r o n : Nat) (hc : c = 65535 - fold16 (r + words32 o))
    (hpos : 0 < r) : checksum_adjust32 c o n = 65535 - fold16 (r + words32 n) := by
  unfold words32 at *
  have h := checksum_adjust32_region c r o n (by rw [hc]; exact compl_fold16_congr _ _ (by omega)) (by omega)
  rw [h]; exact compl_fold16_congr _ _ (by omega)

theorem ip_rest_sum_pos (p : Packet) (h : 0 < p.version ∨ 0 < p.protocol) :
    0 < ip_rest_sum p := by
  unfold ip_rest_sum; omega

theorem ip_valid_src_rewrite (p : Packet) (a : Nat) (hp : p.wf) (ha : a < 4294967296)
    (hnz : 0 < p.version ∨ 0 < p.protocol) (hv : ip_checksum_valid p) :
    ip_checksum_valid ((recalc_ip_checksum p p.ip_src a).set_ip_src a) := by
  have hq := wf_set_ip_src _ a (wf_recalc_ip_checksum p p.ip_src a hp) ha
  unfold ip_checksum_valid at *
  rw [compute_ip_checksum_eq _ hq]
  rw [compute_ip_checksum_eq p hp] at hv
  have hpos := ip_rest_sum_pos p hnz
  show checksum_adjust32 p.ip_checksum p.ip_src a
    = 65535 - fold16 (ip_rest_sum p + words32 a + words32 p.ip_dst)
  have e := checksum_adjust32_words p.ip_checksum (ip_rest_sum p + words32 p.ip_dst)
    p.ip_src a (by rw [hv]; exact compl_fold16_congr _ _ (by omega)) (by omega)
  rw [e]; exact compl_fold16_congr _ _ (by omega)

theorem ip_valid_dst_rewrite (p : Packet) (a : Nat) (hp : p.wf) (ha : a < 4294967296)
    (hnz : 0 < p.version ∨ 0 < p.protocol) (hv : ip_checksum_valid p) :
    ip_checksum_valid ((recalc_ip_checksum p p.ip_dst a).set_ip_dst a) := by
  have hq := wf_set_ip_dst _ a (wf_recalc_ip_checksum p p.ip_dst a hp) ha
  unfold ip_checksum_valid at *
  rw [compute_ip_checksum_eq _ hq]
  rw [compute_ip_checksum_eq p hp] at hv
  have hpos := ip_rest_sum_pos p hnz
  show checksum_adjust32 p.ip_checksum p.ip_dst a
    = 65535 - fold16 (ip_rest_sum p + words32 p.ip_src + words32 a)
  exact checksum_adjust32_words p.ip_checksum (ip_rest_sum p + words32 p.ip_src)
    p.ip_dst a hv (by omega)

theorem l4_rest_sum_pos (p : Packet) (h : 0 < p.protocol) : 0 < l4_rest_sum p := by
  unfold l4_rest_sum; omega

theorem tcp_valid_snat (p : Packet) (s : Socket) (hp : p.wf) (hs : s.wf)
    (hnz : 0 < p.protocol) (hv : tcp_checksum_valid p) :
    tcp_checksum_valid ((recalc_tcp_checksum p p.source s).set_source s) := by
  have hq : ((recalc_tcp_checksum p p.source s).set_source s).wf :=
    wf_set_src_port _ _ (wf_set_ip_src _ _ (wf_set_checksum _ _
      (wf_recalc_ip_checksum p _ _ hp) (checksum_adjust16_le _ _ _)) hs.1) hs.2
  unfold tcp_checksum_valid at *
  rw [compute_l4_checksum_eq _ hq]
  rw [compute_l4_checksum_eq p hp] at hv
  change p.l4_checksum = _ at hv
  have hpos := l4_rest_sum_pos p hnz
  have b1 := htons_lt p.src_port
  have b2 := htons_lt s.port
  show checksum_adjust16 (checksum_adjust32 p.l4_checksum p.ip_src s.address)
      (htons p.src_port) (htons s.port)
    = 65535 - fold16 (l4_rest_sum p + words32 s.address + words32 p.ip_dst
        + htons s.port + htons p.dst_port)
  have e := checksum_adjust32_words p.l4_checksum
    (l4_rest_sum p + words32 p.ip_dst + htons p.src_port + htons p.dst_port)
    p.ip_src s.address (by rw [hv]; exact compl_fold16_congr _ _ (by omega)) (by omega)
  have e2 := checksum_adjust16_region (checksum_adjust32 p.l4_checksum p.ip_src s.address)
    (l4_rest_sum p + words32 s.address + words32 p.ip_dst + htons p.dst_port)
    (htons p.src_port) (htons s.port) (by omega) (by omega)
    (by rw [e]; exact compl_fold16_congr _ _ (by omega)) (by omega)
  rw [e2]; exact compl_fold16_congr _ _ (by omega)

theorem tcp_valid_dnat (p : Packet) (s : Socket) (hp : p.wf) (hs : s.wf)
    (hnz : 0 < p.protocol) (hv : tcp_checksum_valid p) :
    tcp_checksum_valid ((recalc_tcp_checksum p p.destination s).set_destination s) := by
  have hq : ((recalc_tcp_checksum p p.destination s).set_destination s).wf :=
    wf_set_dst_port _ _ (wf_set_ip_dst _ _ (wf_set_checksum _ _
      (wf_recalc_ip_checksum p _ _ hp) (checksum_adjust16_le _ _ _)) hs.1) hs.2
  unfold tcp_checksum_valid at *
  rw [compute_l4_checksum_eq _ hq]
  rw [compute_l4_checksum_eq p hp] at hv
  change p.l4_checksum = _ at hv
  have hpos := l4_rest_sum_pos p hnz
  have b1 := htons_lt p.dst_port
  have b2 := htons_lt s.port
  show checksum_adjust16 (checksum_adjust32 p.l4_checksum p.ip_dst s.address)
      (htons p.dst_port) (htons s.port)
    = 65535 - fold16 (l4_rest_sum p + words32 p.ip_src + words32 s.address
        + htons p.src_port + htons s.port)
  have e := checksum_adjust32_words p.l4_checksum
    (l4_rest_sum p + words32 p.ip_src + htons p.src_port + htons p.dst_port)
    p.ip_dst s.address (by rw [hv]; exact compl_fold16_congr _ _ (by omega)) (by omega)
  have e2 := checksum_adjust16_region (checksum_adjust32 p.l4_checksum p.ip_dst s.address)
    (l4_rest_sum p + words32 p.ip_src + words32 s.address + htons p.src_port)
    (htons p.dst_port) (htons s.port) (by omega) (by omega)
    (by rw [e]; exact compl_fold16_congr _ _ (by omega)) (by omega)
  rw [e2]

/-! ## C1 -/

/-- C1: on a TCP packet whose stored IP and TCP checksums are correct, the
full-socket rewrites `tcp_snat` and `tcp_dnat` complete, leave the source
(resp. destination) socket equal to the new socket, and leave both stored
checksums equal to a recomputation from scratch over the rewritten packet. -/
theorem tcp_socket_rewrite_keeps_checksums (p : Packet) (s : Socket)
    (hp : p.wf) (hs : s.wf) (htcp : p.ip_protocol = Protocol.TCP)
    (hip : ip_checksum_valid p) (htc : tcp_checksum_valid p) :
    ((tcp_snat p s).status = Status.ok ∧ (tcp_snat p s).pkt.source = s ∧
      ip_checksum_valid (tcp_snat p s).pkt ∧ tcp_checksum_valid (tcp_snat p s).pkt) ∧
    ((tcp_dnat p s).status = Status.ok ∧ (tcp_dnat p s).pkt.destination = s ∧
      ip_checksum_valid (tcp_dnat p s).pkt ∧ tcp_checksum_valid (tcp_dnat p s).pkt) := by
  have hproto : p.protocol = 6 := htcp
  have hnz : 0 < p.protocol := by omega
  have e1 : tcp_snat p s = ⟨Status.ok, (recalc_tcp_checksum p p.source s).set_source s⟩ := by
    unfold tcp_snat; rw [if_pos htcp]
  have e2 : tcp_dnat p s
      = ⟨Status.ok, (recalc_tcp_checksum p p.destination s).set_destination s⟩ := by
    unfold tcp_dnat; rw [if_pos htcp]
  rw [e1, e2]
  refine ⟨⟨rfl, rfl, ?_, tcp_valid_snat p s hp hs hnz htc⟩,
    ⟨rfl, rfl, ?_, tcp_valid_dnat p s hp hs hnz htc⟩⟩
  · exact ip_valid_src_rewrite p s.address hp hs.1 (Or.inr hnz) hip
  · exact ip_valid_dst_rewrite p s.address hp hs.1 (Or.inr hnz) hip

/-- C1, the scenario of the spec: 10.0.0.5:4000 to 10.0.0.1:80, source-NAT
to 203.0.113.9:50000. -/
theorem tcp_socket_rewrite_keeps_checksums_witness :
    ((tcp_snat scenario_tcp scenario_socket).status = Status.ok ∧
      (tcp_snat scenario_tcp scenario_socket).pkt.source = scenario_socket ∧
      ip_checksum_valid (tcp_snat scenario_tcp scenario_socket).pkt ∧
      tcp_checksum_valid (tcp_snat scenario_tcp scenario_socket).pkt) ∧
    ((tcp_dnat scenario_tcp scenario_socket).status = Status.ok ∧
      (tcp_dnat scenario_tcp scenario_socket).pkt.destination = scenario_socket ∧
      ip_checksum_valid (tcp_dnat scenario_tcp scenario_socket).pkt ∧
      tcp_checksum_valid (tcp_dnat scenario_tcp scenario_socket).pkt) :=
  tcp_socket_rewrite_keeps_checksums scenario_tcp scenario_socket
    (by decide) (by decide) (by decide) (by decide) (by decide)

/-! ## C2 -/

theorem ip_valid_tcp_snat (p : Packet) (s : Socket) (hp : p.wf) (hs : s.wf)
    (hnz : 0 < p.version ∨ 0 < p.protocol) (hv : ip_checksum_valid p) :
    ip_checksum_valid (tcp_snat p s).pkt := by
  unfold tcp_snat
  split
  · exact ip_valid_src_rewrite p s.address hp hs.1 hnz hv
  · exact hv

theorem ip_valid_tcp_dnat (p : Packet) (s : Socket) (hp : p.wf) (hs : s.wf)
    (hnz : 0 < p.version ∨ 0 < p.protocol) (hv : ip_checksum_valid p) :
    ip_checksum_valid (tcp_dnat p s).pkt := by
  unfold tcp_dnat
  split
  · exact ip_valid_dst_rewrite p s.address hp hs.1 hnz hv
  · exact hv

theorem ip_valid_tcp_dnat_addr (p : Packet) (a : Nat) (hp : p.wf) (ha : a < 4294967296)
    (hnz : 0 < p.version ∨ 0 < p.protocol) (hv : ip_checksum_valid p) :
    ip_checksum_valid (tcp_dnat_addr p a).pkt := by
  unfold tcp_dnat_addr
  split
  · exact ip_valid_dst_rewrite p a hp ha hnz hv
  · exact hv

theorem ip_valid_tcp_dnat_port (p : Packet) (n : Nat) (hv : ip_checksum_valid p) :
    ip_checksum_valid (tcp_dnat_port p n).pkt := by
  unfold tcp_dnat_port
  split
  · exact hv
  · exact hv

theorem ip_valid_udp_snat (p : Packet) (s : Socket) (hp : p.wf) (hs : s.wf)
    (hnz : 0 < p.version ∨ 0 < p.protocol) (hv : ip_checksum_valid p) :
    ip_checksum_valid (udp_snat p s).pkt := by
  unfold udp_snat
  split
  · exact ip_valid_src_rewrite p s.address hp hs.1 hnz hv
  · exact hv

theorem ip_valid_udp_dnat (p : Packet) (s : Socket) (hp : p.wf) (hs : s.wf)
    (hnz : 0 < p.version ∨ 0 < p.protocol) (hv : ip_checksum_valid p) :
    ip_checksum_valid (udp_dnat p s).pkt := by
  unfold udp_dnat
  split
  · exact ip_valid_dst_rewrite p s.address hp hs.1 hnz hv
  · exact hv

theorem ip_valid_udp_dnat_addr (p : Packet) (a : Nat) (hp : p.wf) (ha : a < 4294967296)
    (hnz : 0 < p.version ∨ 0 < p.protocol) (hv : ip_checksum_valid p) :
    ip_checksum_valid (udp_dnat_addr p a).pkt := by
  unfold udp_dnat_addr
  split
  · exact ip_valid_dst_rewrite p a hp ha hnz hv
  · exact hv

theorem ip_valid_udp_dnat_port (p : Packet) (n : Nat) (hv : ip_checksum_valid p) :
    ip_checksum_valid (udp_dnat_port p n).pkt := by
  unfold udp_dnat_port
  split
  · exact hv
  · exact hv

theorem ip_valid_icmp_snat (p : Packet) (a : Nat) (hp : p.wf) (ha : a < 4294967296)
    (hnz : 0 < p.version ∨ 0 < p.protocol) (hv : ip_checksum_valid p) :
    ip_checksum_valid (icmp_snat p a).pkt :=
  ip_valid_src_rewrite p a hp ha hnz hv

theorem ip_valid_icmp_dnat (p : Packet) (a : Nat) (hp : p.wf) (ha : a < 4294967296)
    (hnz : 0 < p.version ∨ 0 < p.protocol) (hv : ip_checksum_valid p) :
    ip_checksum_valid (icmp_dnat p a).pkt :=
  ip_valid_dst_rewrite p a hp ha hnz hv

theorem status_snat (p : Packet) (s : Socket) : (snat p s).status = Status.ok := by
  unfold snat tcp_snat udp_snat
  split
  · rfl
  · split
    · rfl
    · rfl

theorem status_dnat (p : Packet) (s : Socket) : (dnat p s).status = Status.ok := by
  unfold dnat tcp_dnat udp_dnat
  split
  · rfl
  · split
    · rfl
    · rfl

theorem status_dnat_addr (p : Packet) (a : Nat) : (dnat_addr p a).status = Status.ok := by
  unfold dnat_addr tcp_dnat_addr udp_dnat_addr icmp_dnat
  split
  · rfl
  · split
    · rfl
    · split
      · rfl
      · rfl

theorem status_dnat_port (p : Packet) (n : Nat) : (dnat_port p n).status = Status.ok := by
  unfold dnat_port tcp_dnat_port udp_dnat_port
  split
  · rfl
  · split
    · rfl
    · rfl

/-- C2: on an IPv4 packet whose stored IP header checksum is correct, every
translation leaves a packet whose stored IP header checksum equals the one
recomputed from scratch over the header as stored after the call.  The
dispatchers and the ICMP translators always complete, the UDP translators
complete on a UDP packet. -/
theorem ip_checksum_valid_after_translation (p : Packet) (s : Socket) (a n : Nat)
    (hp : p.wf) (h4 : p.is_ipv4) (hs : s.wf) (ha : a < 4294967296)
    (hv : ip_checksum_valid p) :
    ((snat p s).status = Status.ok ∧ ip_checksum_valid (snat p s).pkt) ∧
    ((dnat p s).status = Status.ok ∧ ip_checksum_valid (dnat p s).pkt) ∧
    ((dnat_addr p a).status = Status.ok ∧ ip_checksum_valid (dnat_addr p a).pkt) ∧
    ((dnat_port p n).status = Status.ok ∧ ip_checksum_valid (dnat_port p n).pkt) ∧
    ((p.ip_protocol = Protocol.UDP → (udp_snat p s).status = Status.ok) ∧
      ip_checksum_valid (udp_snat p s).pkt) ∧
    ((p.ip_protocol = Protocol.UDP → (udp_dnat p s).status = Status.ok) ∧
      ip_checksum_valid (udp_dnat p s).pkt) ∧
    ((p.ip_protocol = Protocol.UDP → (udp_dnat_addr p a).status = Status.ok) ∧
      ip_checksum_valid (udp_dnat_addr p a).pkt) ∧
    ((p.ip_protocol = Protocol.UDP → (udp_dnat_port p n).status = Status.ok) ∧
      ip_checksum_valid (udp_dnat_port p n).pkt) ∧
    ((icmp_snat p a).status = Status.ok ∧ ip_checksum_valid (icmp_snat p a).pkt) ∧
    ((icmp_dnat p a).status = Status.ok ∧ ip_checksum_valid (icmp_dnat p a).pkt) := by
  have hver : p.version = 4 := h4
  have hnz : 0 < p.version ∨ 0 < p.protocol := Or.inl (by omega)
  refine ⟨⟨status_snat p s, ?_⟩, ⟨status_dnat p s, ?_⟩, ⟨status_dnat_addr p a, ?_⟩,
    ⟨status_dnat_port p n, ?_⟩,
    ⟨fun h => by unfold udp_snat; rw [if_pos h], ip_valid_udp_snat p s hp hs hnz hv⟩,
    ⟨fun h => by unfold udp_dnat; rw [if_pos h], ip_valid_udp_dnat p s hp hs hnz hv⟩,
    ⟨fun h => by unfold udp_dnat_addr; rw [if_pos h],
      ip_valid_udp_dnat_addr p a hp ha hnz hv⟩,
    ⟨fun h => by unfold udp_dnat_port; rw [if_pos h], ip_valid_udp_dnat_port p n hv⟩,
    ⟨rfl, ip_valid_icmp_snat p a hp ha hnz hv⟩,
    ⟨rfl, ip_valid_icmp_dnat p a hp ha hnz hv⟩⟩
  · unfold snat
    split
    · exact ip_valid_tcp_snat p s hp hs hnz hv
    · split
      · exact ip_valid_udp_snat p s hp hs hnz hv
      · exact hv
  · unfold dnat
    split
    · exact ip_valid_tcp_dnat p s hp hs hnz hv
    · split
      · exact ip_valid_udp_dnat p s hp hs hnz hv
      · exact hv
  · unfold dnat_addr
    split
    · exact ip_valid_tcp_dnat_addr p a hp ha hnz hv
    · split
      · exact ip_valid_udp_dnat_addr p a hp ha hnz hv
      · split
        · exact ip_valid_icmp_dnat p a hp ha hnz hv
        · exact hv
  · unfold dnat_port
    split
    · exact ip_valid_tcp_dnat_port p n hv
    · split
      · exact ip_valid_udp_dnat_port p n hv
      · exact hv

/-- C2 at the UDP packet of the scenario, with the socket 203.0.113.9:50000,
its address, and port 8080. -/
theorem ip_checksum_valid_after_translation_witness :
    ((snat scenario_udp scenario_socket).status = Status.ok ∧
      ip_checksum_valid (snat scenario_udp scenario_socket).pkt) ∧
    ((dnat scenario_udp scenario_socket).status = Status.ok ∧
      ip_checksum_valid (dnat scenario_udp scenario_socket).pkt) ∧
    ((dnat_addr scenario_udp 158400715).status = Status.ok ∧
      ip_checksum_valid (dnat_addr scenario_udp 158400715).pkt) ∧
    ((dnat_port scenario_udp 8080).status = Status.ok ∧
      ip_checksum_valid (dnat_port scenario_udp 8080).pkt) ∧
    ((scenario_udp.ip_protocol = Protocol.UDP →
        (udp_snat scenario_udp scenario_socket).status = Status.ok) ∧
      ip_checksum_valid (udp_snat scenario_udp scenario_socket).pkt) ∧
    ((scenario_udp.ip_protocol = Protocol.UDP →
        (udp_dnat scenario_udp scenario_socket).status = Status.ok) ∧
      ip_checksum_valid (udp_dnat scenario_udp scenario_socket).pkt) ∧
    ((scenario_udp.ip_protocol = Protocol.UDP →
        (udp_dnat_addr scenario_udp 158400715).status = Status.ok) ∧
      ip_checksum_valid (udp_dnat_addr scenario_udp 158400715).pkt) ∧
    ((scenario_udp.ip_protocol = Protocol.UDP →
        (udp_dnat_port scenario_udp 8080).status = Status.ok) ∧
      ip_checksum_valid (udp_dnat_port scenario_udp 8080).pkt) ∧
    ((icmp_snat scenario_udp 158400715).status = Status.ok ∧
      ip_checksum_valid (icmp_snat scenario_udp 158400715).pkt) ∧
    ((icmp_dnat scenario_udp 158400715).status = Status.ok ∧
      ip_checksum_valid (icmp_dnat scenario_udp 158400715).pkt) :=
  ip_checksum_valid_after_translation scenario_udp scenario_socket 158400715 8080
    (by decide) (by decide) (by decide) (by decide) (by decide)

/-! ## C3 -/

/-- C3: on a TCP packet whose stored TCP checksum is correct, the
address-only rewrite `tcp_dnat(Addr)` completes, leaves the destination
address equal to the new address and the stored TCP checksum equal to a
recomputation over the new pseudo-header and segment; the port-only rewrite
`tcp_dnat(uint16_t)` completes, leaves the destination port equal to the new
port and the stored TCP checksum equal to a recomputation over pseudo-header
and segment, in which the port is summed as `htons port`. -/
theorem tcp_addr_and_port_rewrite_keep_tcp_checksum (p : Packet) (a n : Nat)
    (hp : p.wf) (ha : a < 4294967296) (hn : n < 65536)
    (htcp : p.ip_protocol = Protocol.TCP) (htc : tcp_checksum_valid p) :
    ((tcp_dnat_addr p a).status = Status.ok ∧ (tcp_dnat_addr p a).pkt.ip_dst = a ∧
      tcp_checksum_valid (tcp_dnat_addr p a).pkt) ∧
    ((tcp_dnat_port p n).status = Status.ok ∧ (tcp_dnat_port p n).pkt.dst_port = n ∧
      tcp_checksum_valid (tcp_dnat_port p n).pkt) := by
  have hproto : p.protocol = 6 := htcp
  have hpos := l4_rest_sum_pos p (by omega)
  have e1 : tcp_dnat_addr p a = ⟨Status.ok,
      (((recalc_ip_checksum p p.ip_dst a).set_checksum
        (checksum_adjust32 p.l4_checksum p.ip_dst a)).set_ip_dst a)⟩ := by
    unfold tcp_dnat_addr; rw [if_pos htcp]; rfl
  have e2 : tcp_dnat_port p n = ⟨Status.ok,
      ((p.set_checksum (checksum_adjust16 p.l4_checksum (htons p.dst_port) (htons n))).set_dst_port
        n)⟩ := by
    unfold tcp_dnat_port; rw [if_pos htcp]; rfl
  have hq1 := wf_set_ip_dst _ a (wf_set_checksum _ (checksum_adjust32 p.l4_checksum p.ip_dst a)
    (wf_recalc_ip_checksum p p.ip_dst a hp) (checksum_adjust32_le _ _ _)) ha
  have hq2 := wf_set_dst_port _ n (wf_set_checksum p
    (checksum_adjust16 p.l4_checksum (htons p.dst_port) (htons n)) hp
    (checksum_adjust16_le _ _ _)) hn
  have b1 := htons_lt p.dst_port
  have b2 := htons_lt n
  unfold tcp_checksum_valid at htc
  rw [compute_l4_checksum_eq p hp] at htc
  change p.l4_checksum = _ at htc
  rw [e1, e2]
  refine ⟨⟨rfl, rfl, ?_⟩, ⟨rfl, rfl, ?_⟩⟩
  · unfold tcp_checksum_valid
    rw [compute_l4_checksum_eq _ hq1]
    show checksum_adjust32 p.l4_checksum p.ip_dst a
      = 65535 - fold16 (l4_rest_sum p + words32 p.ip_src + words32 a
          + htons p.src_port + htons p.dst_port)
    have e := checksum_adjust32_words p.l4_checksum
      (l4_rest_sum p + words32 p.ip_src + htons p.src_port + htons p.dst_port)
      p.ip_dst a (by rw [htc]; exact compl_fold16_congr _ _ (by omega)) (by omega)
    rw [e]; exact compl_fold16_congr _ _ (by omega)
  · unfold tcp_checksum_valid
    rw [compute_l4_checksum_eq _ hq2]
    show checksum_adjust16 p.l4_checksum (htons p.dst_port) (htons n)
      = 65535 - fold16 (l4_rest_sum p + words32 p.ip_src + words32 p.ip_dst
          + htons p.src_port + htons n)
    exact checksum_adjust16_region p.l4_checksum
      (l4_rest_sum p + words32 p.ip_src + words32 p.ip_dst + htons p.src_port)
      (htons p.dst_port) (htons n) (by omega) (by omega) htc (by omega)

/-- C3 at the TCP packet of the scenario: new destination address
203.0.113.9, new destination port 8080. -/
theorem tcp_addr_and_port_rewrite_keep_tcp_checksum_witness :
    ((tcp_dnat_addr scenario_tcp 158400715).status = Status.ok ∧
      (tcp_dnat_addr scenario_tcp 158400715).pkt.ip_dst = 158400715 ∧
      tcp_checksum_valid (tcp_dnat_addr scenario_tcp 158400715).pkt) ∧
    ((tcp_dnat_port scenario_tcp 8080).status = Status.ok ∧
      (tcp_dnat_port scenario_tcp 8080).pkt.dst_port = 8080 ∧
      tcp_checksum_valid (tcp_dnat_port scenario_tcp 8080).pkt) :=
  tcp_addr_and_port_rewrite_keep_tcp_checksum scenario_tcp 158400715 8080
    (by decide) (by decide) (by decide) (by decide) (by decide)

/-! ## C4 -/

theorem sum_pos_of_nonzero (ws : List Nat) (h : ∃ w ∈ ws, w ≠ 0) : 0 < ws.sum := by
  obtain ⟨w, hw, hne⟩ := h
  have := List.single_le_sum (fun x _ => Nat.zero_le x) w hw
  omega

/-- C4 as stated fails when the changed region is all zero: in the region
`[5]` with checksum `0xFFFA`, replacing 5 by 0 gives `0x0000` by the update
and `0xFFFF` by recomputation. -/
theorem checksum_adjust_all_zero_region :
    checksum [5] = 65530 ∧ checksum_adjust16 (checksum [5]) 5 0 = 0 ∧ checksum [0] = 65535 := by
  decide

/-- C4, amended: in a region of 16-bit words, replacing one word `m1` by
`n1` and updating the checksum of the region by the one-word rule, or
replacing two adjacent words `m1, m2` by `n1, n2` and updating by the 32-bit
rule, gives exactly the checksum recomputed from scratch over the changed
region, provided the changed region has a non-zero word.  When the changed
region is all zero, the update gives `0x0000` and the recomputation
`0xFFFF`. -/
theorem checksum_adjust_matches_recompute (pre post : List Nat) (m1 m2 n1 n2 : Nat)
    (hpre : ∀ w ∈ pre, w < 65536) (hpost : ∀ w ∈ post, w < 65536)
    (hm1 : m1 < 65536) (hm2 : m2 < 65536) (hn1 : n1 < 65536) (hn2 : n2 < 65536) :
    ((∃ w ∈ pre ++ n1 :: post, w ≠ 0) →
      checksum_adjust16 (checksum (pre ++ m1 :: post)) m1 n1 = checksum (pre ++ n1 :: post)) ∧
    ((∃ w ∈ pre ++ n1 :: n2 :: post, w ≠ 0) →
      checksum_adjust32 (checksum (pre ++ m1 :: m2 :: post)) (m1 + 65536 * m2)
          (n1 + 65536 * n2)
        = checksum (pre ++ n1 :: n2 :: post)) ∧
    ((∀ w ∈ pre ++ n1 :: post, w = 0) →
      checksum_adjust16 (checksum (pre ++ m1 :: post)) m1 n1 = 0 ∧
      checksum (pre ++ n1 :: post) = 65535) ∧
    ((∀ w ∈ pre ++ n1 :: n2 :: post, w = 0) →
      checksum_adjust32 (checksum (pre ++ m1 :: m2 :: post)) (m1 + 65536 * m2)
          (n1 + 65536 * n2) = 0 ∧
      checksum (pre ++ n1 :: n2 :: post) = 65535) := by
  have hall : ∀ l : List Nat, (∀ w ∈ l, w < 65536) → ∀ w ∈ pre ++ l, w < 65536 := by
    intro l hl w hw
    rcases List.mem_append.1 hw with h | h
    · exact hpre w h
    · exact hl w h
  have hcons : ∀ (x : Nat) (l : List Nat), x < 65536 → (∀ w ∈ l, w < 65536) →
      ∀ w ∈ x :: l, w < 65536 := by
    intro x l hx hl w hw
    rcases List.mem_cons.1 hw with h | h
    · omega
    · exact hl w h
  refine ⟨?_, ?_, ?_, ?_⟩
  · intro hnz
    have h1 := hall _ (hcons m1 post hm1 hpost)
    have h2 := hall _ (hcons n1 post hn1 hpost)
    have hs := sum_pos_of_nonzero _ hnz
    rw [checksum_eq _ h2, checksum_eq _ h1]
    simp only [List.sum_append, List.sum_cons] at hs ⊢
    have e := checksum_adjust16_region (65535 - fold16 (pre.sum + (m1 + post.sum)))
      (pre.sum + post.sum) m1 n1 (by omega) (by omega)
      (compl_fold16_congr _ _ (by omega)) (by omega)
    rw [e]; exact compl_fold16_congr _ _ (by omega)
  · intro hnz
    have h1 := hall _ (hcons m1 _ hm1 (hcons m2 post hm2 hpost))
    have h2 := hall _ (hcons n1 _ hn1 (hcons n2 post hn2 hpost))
    have hs := sum_pos_of_nonzero _ hnz
    rw [checksum_eq _ h2, checksum_eq _ h1]
    simp only [List.sum_append, List.sum_cons] at hs ⊢
    have e := checksum_adjust32_region (65535 - fold16 (pre.sum + (m1 + (m2 + post.sum))))
      (pre.sum + post.sum) (m1 + 65536 * m2)
      (n1 + 65536 * n2) (compl_fold16_congr _ _ (by omega)) (by omega)
    rw [e]; exact compl_fold16_congr _ _ (by omega)
  · intro hz
    have h1 := hall _ (hcons m1 post hm1 hpost)
    have h2 := hall _ (hcons n1 post hn1 hpost)
    have hs : (pre ++ n1 :: post).sum = 0 := List.sum_eq_zero_iff.2 hz
    rw [checksum_eq _ h2, checksum_eq _ h1]
    simp only [List.sum_append, List.sum_cons] at hs ⊢
    have e0 : pre.sum + (m1 + post.sum) = m1 := by omega
    have e1 : pre.sum + (n1 + post.sum) = 0 := by omega
    have hn0 : n1 = 0 := by omega
    rw [e0, e1, fold16_of_le m1 (by omega), hn0]
    rw [checksum_adjust16_eq _ m1 0 (by omega) (by omega) (by omega)]
    constructor
    · have e2 : 65535 - (65535 - m1) + (65535 - m1) + 0 = 65535 := by omega
      rw [e2]; unfold fold16; omega
    · unfold fold16; omega
  · intro hz
    have h1 := hall _ (hcons m1 _ hm1 (hcons m2 post hm2 hpost))
    have h2 := hall _ (hcons n1 _ hn1 (hcons n2 post hn2 hpost))
    have hs : (pre ++ n1 :: n2 :: post).sum = 0 := List.sum_eq_zero_iff.2 hz
    rw [checksum_eq _ h2, checksum_eq _ h1]
    simp only [List.sum_append, List.sum_cons] at hs ⊢
    have e0 : pre.sum + (m1 + (m2 + post.sum)) = m1 + m2 := by omega
    have e1 : pre.sum + (n1 + (n2 + post.sum)) = 0 := by omega
    have hn1z : n1 = 0 := by omega
    have hn2z : n2 = 0 := by omega
    rw [e0, e1, hn1z, hn2z]
    constructor
    · have hf := fold16_le (m1 + m2)
      rw [checksum_adjust32_eq _ _ _ (by omega)]
      have e2 : 65535 - (65535 - fold16 (m1 + m2)) = fold16 (m1 + m2) := by omega
      have e3 : fold16 (m1 + m2) + (65535 - (m1 + 65536 * m2) % 65536)
          + (0 + 65536 * 0) % 65536 + (65535 - (m1 + 65536 * m2) / 65536 % 65536)
          + (0 + 65536 * 0) / 65536 % 65536
          = fold16 (m1 + m2) + (65535 - m1 + (65535 - m2)) := by omega
      rw [e2, e3, fold16_fold16_add]
      have e4 : m1 + m2 + (65535 - m1 + (65535 - m2)) = 65535 * 2 := by omega
      rw [e4]; unfold fold16; omega
    · unfold fold16; omega

/-- C4, amended, at the IP header of the scenario, where the two words of
the source address 10.0.0.5 are replaced by those of 203.0.113.9, and at the
region `[5, 7, 0, 0]`, whose first two words are replaced by zero. -/
theorem checksum_adjust_matches_recompute_witness :
    (checksum_adjust16 (checksum ([69, 10240, 4660, 64, 1600, 0] ++ 10 :: [10, 256])) 10 203
      = checksum ([69, 10240, 4660, 64, 1600, 0] ++ 203 :: [10, 256]) ∧
    checksum_adjust32 (checksum ([69, 10240, 4660, 64, 1600, 0] ++ 10 :: 1280 :: [10, 256]))
        (10 + 65536 * 1280) (203 + 65536 * 2417)
      = checksum ([69, 10240, 4660, 64, 1600, 0] ++ 203 :: 2417 :: [10, 256])) ∧
    (checksum_adjust16 (checksum ([] ++ 5 :: [0, 0])) 5 0 = 0 ∧
      checksum ([] ++ 0 :: [0, 0]) = 65535) ∧
    (checksum_adjust32 (checksum ([] ++ 5 :: 7 :: [0, 0])) (5 + 65536 * 7) (0 + 65536 * 0) = 0 ∧
      checksum ([] ++ 0 :: 0 :: [0, 0]) = 65535) :=
  ⟨⟨(checksum_adjust_matches_recompute [69, 10240, 4660, 64, 1600, 0] [10, 256] 10 1280 203
        2417 (by decide) (by decide) (by decide) (by decide) (by decide) (by decide)).1
      ⟨69, by decide, by decide⟩,
    (checksum_adjust_matches_recompute [69, 10240, 4660, 64, 1600, 0] [10, 256] 10 1280 203
        2417 (by decide) (by decide) (by decide) (by decide) (by decide) (by decide)).2.1
      ⟨69, by decide, by decide⟩⟩,
    (checksum_adjust_matches_recompute [] [0, 0] 5 7 0 0
      (by decide) (by decide) (by decide) (by decide) (by decide) (by decide)).2.2.1
      (by decide),
    (checksum_adjust_matches_recompute [] [0, 0] 5 7 0 0
      (by decide) (by decide) (by decide) (by decide) (by decide) (by decide)).2.2.2
      (by decide)⟩

/-! ## No-op and round trip in the engine -/

theorem checksum_adjust16_fold (t m n : Nat) (hm : m ≤ 65535) (hn : n ≤ 65535) :
    checksum_adjust16 (65535 - fold16 t) m n = 65535 - fold16 (t + ((65535 - m) + n)) := by
  have h := fold16_le t
  rw [checksum_adjust16_eq _ m n (by omega) hm hn]
  have e : 65535 - (65535 - fold16 t) = fold16 t := by omega
  rw [e, Nat.add_assoc (fold16 t), fold16_fold16_add]

theorem checksum_adjust32_fold (t o n : Nat) :
    checksum_adjust32 (65535 - fold16 t) o n = 65535 - fold16 (t + delta32 o n) := by
  have h := fold16_le t
  rw [checksum_adjust32_eq _ o n (by omega)]
  have e : 65535 - (65535 - fold16 t) = fold16 t := by omega
  rw [e]
  have e1 : fold16 t + (65535 - o % 65536) + n % 65536 + (65535 - o / 65536 % 65536)
      + n / 65536 % 65536 = fold16 t + delta32 o n := by unfold delta32; omega
  rw [e1, fold16_fold16_add]

theorem exists_fold16_form (c : Nat) (hc : c < 65535) :
    ∃ x, 0 < x ∧ x ≤ 65535 ∧ c = 65535 - fold16 x :=
  ⟨65535 - c, by omega, by omega, by rw [fold16_of_le _ (by omega)]; omega⟩

theorem compl_fold16_wrap (x k : Nat) (hx : 0 < x) :
    65535 - fold16 (x + 65535 * k) = 65535 - fold16 x := by
  unfold fold16; omega

theorem checksum_adjust16_same (c m : Nat) (hc : c < 65535) (hm : m ≤ 65535) :
    checksum_adjust16 c m m = c := by
  obtain ⟨x, hx0, _, rfl⟩ := exists_fold16_form c hc
  rw [checksum_adjust16_fold x m m hm hm]
  have e : x + ((65535 - m) + m) = x + 65535 * 1 := by omega
  rw [e, compl_fold16_wrap x 1 hx0]

theorem checksum_adjust32_same (c a : Nat) (hc : c < 65535) : checksum_adjust32 c a a = c := by
  obtain ⟨x, hx0, _, rfl⟩ := exists_fold16_form c hc
  rw [checksum_adjust32_fold x a a]
  have e : x + delta32 a a = x + 65535 * 2 := by unfold delta32; omega
  rw [e, compl_fold16_wrap x 2 hx0]

theorem checksum_adjust16_round_trip (c m n : Nat) (hc : c < 65535) (hm : m ≤ 65535)
    (hn : n ≤ 65535) : checksum_adjust16 (checksum_adjust16 c m n) n m = c := by
  obtain ⟨x, hx0, _, rfl⟩ := exists_fold16_form c hc
  rw [checksum_adjust16_fold x m n hm hn, checksum_adjust16_fold _ n m hn hm]
  have e : x + ((65535 - m) + n) + ((65535 - n) + m) = x + 65535 * 2 := by omega
  rw [e, compl_fold16_wrap x 2 hx0]

theorem checksum_adjust32_round_trip (c a b : Nat) (hc : c < 65535) :
    checksum_adjust32 (checksum_adjust32 c a b) b a = c := by
  obtain ⟨x, hx0, _, rfl⟩ := exists_fold16_form c hc
  rw [checksum_adjust32_fold x a b, checksum_adjust32_fold _ b a]
  have e : x + delta32 a b + delta32 b a = x + 65535 * 4 := by unfold delta32; omega
  rw [e, compl_fold16_wrap x 4 hx0]

theorem checksum_adjust_socket_round_trip (c a b m n : Nat) (hc : c < 65535)
    (hm : m ≤ 65535) (hn : n ≤ 65535) :
    checksum_adjust16 (checksum_adjust32
      (checksum_adjust16 (checksum_adjust32 c a b) m n) b a) n m = c := by
  obtain ⟨x, hx0, _, rfl⟩ := exists_fold16_form c hc
  rw [checksum_adjust32_fold x a b, checksum_adjust16_fold _ m n hm hn,
    checksum_adjust32_fold _ b a, checksum_adjust16_fold _ n m hn hm]
  have e : x + delta32 a b + ((65535 - m) + n) + delta32 b a + ((65535 - n) + m)
      = x + 65535 * 6 := by unfold delta32; omega
  rw [e, compl_fold16_wrap x 6 hx0]

theorem compl_fold16_zero : 65535 - fold16 0 = 65535 := by
  unfold fold16; omega

theorem compl_fold16_multiple (k : Nat) (hk : 0 < k) : 65535 - fold16 (65535 * k) = 0 := by
  unfold fold16; omega

theorem checksum_adjust16_same_ffff (m : Nat) (hm : m ≤ 65535) :
    checksum_adjust16 65535 m m = 0 := by
  have h := checksum_adjust16_fold 0 m m hm hm
  rw [compl_fold16_zero] at h
  rw [h, show 0 + ((65535 - m) + m) = 65535 * 1 from by omega]
  exact compl_fold16_multiple 1 (by omega)

theorem checksum_adjust32_same_ffff (a : Nat) : checksum_adjust32 65535 a a = 0 := by
  have h := checksum_adjust32_fold 0 a a
  rw [compl_fold16_zero] at h
  rw [h, show 0 + delta32 a a = 65535 * 2 from by unfold delta32; omega]
  exact compl_fold16_multiple 2 (by omega)

theorem checksum_adjust32_round_trip_fold (t a b : Nat) :
    checksum_adjust32 (checksum_adjust32 (65535 - fold16 t) a b) b a
      = 65535 - fold16 (t + 65535 * 4) := by
  rw [checksum_adjust32_fold t a b, checksum_adjust32_fold _ b a]
  exact compl_fold16_congr _ _ (by unfold delta32; omega)

theorem checksum_adjust32_round_trip_ffff (a b : Nat) :
    checksum_adjust32 (checksum_adjust32 65535 a b) b a = 0 := by
  have h := checksum_adjust32_round_trip_fold 0 a b
  rw [compl_fold16_zero] at h
  rw [h, Nat.zero_add]
  exact compl_fold16_multiple 4 (by omega)

theorem checksum_adjust_socket_round_trip_fold (t a b m n : Nat) (hm : m ≤ 65535)
    (hn : n ≤ 65535) :
    checksum_adjust16 (checksum_adjust32
      (checksum_adjust16 (checksum_adjust32 (65535 - fold16 t) a b) m n) b a) n m
      = 65535 - fold16 (t + 65535 * 6) := by
  rw [checksum_adjust32_fold t a b, checksum_adjust16_fold _ m n hm hn,
    checksum_adjust32_fold _ b a, checksum_adjust16_fold _ n m hn hm]
  exact compl_fold16_congr _ _ (by unfold delta32; omega)

theorem checksum_adjust_socket_round_trip_ffff (a b m n : Nat) (hm : m ≤ 65535)
    (hn : n ≤ 65535) :
    checksum_adjust16 (checksum_adjust32
      (checksum_adjust16 (checksum_adjust32 65535 a b) m n) b a) n m = 0 := by
  have h := checksum_adjust_socket_round_trip_fold 0 a b m n hm hn
  rw [compl_fold16_zero] at h
  rw [h, Nat.zero_add]
  exact compl_fold16_multiple 6 (by omega)

/-! ## The translators in closed form -/

theorem tcp_snat_of_tcp (p : Packet) (s : Socket) (h : p.ip_protocol = Protocol.TCP) :
    tcp_snat p s = ⟨Status.ok,
      { p with ip_checksum := checksum_adjust32 p.ip_checksum p.ip_src s.address,
               l4_checksum := checksum_adjust16
                 (checksum_adjust32 p.l4_checksum p.ip_src s.address)
                 (htons p.src_port) (htons s.port),
               ip_src := s.address, src_port := s.port }⟩ := by
  unfold tcp_snat; rw [if_pos h]; rfl

theorem tcp_dnat_of_tcp (p : Packet) (s : Socket) (h : p.ip_protocol = Protocol.TCP) :
    tcp_dnat p s = ⟨Status.ok,
      { p with ip_checksum := checksum_adjust32 p.ip_checksum p.ip_dst s.address,
               l4_checksum := checksum_adjust16
                 (checksum_adjust32 p.l4_checksum p.ip_dst s.address)
                 (htons p.dst_port) (htons s.port),
               ip_dst := s.address, dst_port := s.port }⟩ := by
  unfold tcp_dnat; rw [if_pos h]; rfl

theorem tcp_dnat_addr_of_tcp (p : Packet) (a : Nat) (h : p.ip_protocol = Protocol.TCP) :
    tcp_dnat_addr p a = ⟨Status.ok,
      { p with ip_checksum := checksum_adjust32 p.ip_checksum p.ip_dst a,
               l4_checksum := checksum_adjust32 p.l4_checksum p.ip_dst a,
               ip_dst := a }⟩ := by
  unfold tcp_dnat_addr; rw [if_pos h]; rfl

theorem tcp_dnat_port_of_tcp (p : Packet) (n : Nat) (h : p.ip_protocol = Protocol.TCP) :
    tcp_dnat_port p n = ⟨Status.ok,
      { p with l4_checksum := checksum_adjust16 p.l4_checksum (htons p.dst_port) (htons n),
               dst_port := n }⟩ := by
  unfold tcp_dnat_port; rw [if_pos h]; rfl

theorem snat_of_tcp (p : Packet) (s : Socket) (h : p.ip_protocol = Protocol.TCP) :
    snat p s = tcp_snat p s := by
  unfold snat; rw [if_pos h]

theorem dnat_of_tcp (p : Packet) (s : Socket) (h : p.ip_protocol = Protocol.TCP) :
    dnat p s = tcp_dnat p s := by
  unfold dnat; rw [if_pos h]

theorem dnat_addr_of_tcp (p : Packet) (a : Nat) (h : p.ip_protocol = Protocol.TCP) :
    dnat_addr p a = tcp_dnat_addr p a := by
  unfold dnat_addr; rw [if_pos h]

theorem dnat_port_of_tcp (p : Packet) (n : Nat) (h : p.ip_protocol = Protocol.TCP) :
    dnat_port p n = tcp_dnat_port p n := by
  unfold dnat_port; rw [if_pos h]

theorem dnat_addr_of_icmp (p : Packet) (a : Nat) (h : p.ip_protocol = Protocol.ICMPv4) :
    dnat_addr p a = icmp_dnat p a := by
  unfold dnat_addr
  rw [if_neg (by rw [h]; decide), if_neg (by rw [h]; decide), if_pos h]

theorem snat_of_udp (p : Packet) (s : Socket) (h : p.ip_protocol = Protocol.UDP) :
    snat p s = udp_snat p s := by
  unfold snat; rw [if_neg (by rw [h]; decide), if_pos h]

theorem dnat_of_udp (p : Packet) (s : Socket) (h : p.ip_protocol = Protocol.UDP) :
    dnat p s = udp_dnat p s := by
  unfold dnat; rw [if_neg (by rw [h]; decide), if_pos h]

theorem dnat_addr_of_udp (p : Packet) (a : Nat) (h : p.ip_protocol = Protocol.UDP) :
    dnat_addr p a = udp_dnat_addr p a := by
  unfold dnat_addr; rw [if_neg (by rw [h]; decide), if_pos h]

theorem dnat_port_of_udp (p : Packet) (n : Nat) (h : p.ip_protocol = Protocol.UDP) :
    dnat_port p n = udp_dnat_port p n := by
  unfold dnat_port; rw [if_neg (by rw [h]; decide), if_pos h]

theorem udp_snat_of_udp (p : Packet) (s : Socket) (h : p.ip_protocol = Protocol.UDP) :
    udp_snat p s = ⟨Status.ok,
      { p with ip_checksum := checksum_adjust32 p.ip_checksum p.ip_src s.address,
               ip_src := s.address, src_port := s.port }⟩ := by
  unfold udp_snat; rw [if_pos h]; rfl

theorem udp_dnat_of_udp (p : Packet) (s : Socket) (h : p.ip_protocol = Protocol.UDP) :
    udp_dnat p s = ⟨Status.ok,
      { p with ip_checksum := checksum_adjust32 p.ip_checksum p.ip_dst s.address,
               ip_dst := s.address, dst_port := s.port }⟩ := by
  unfold udp_dnat; rw [if_pos h]; rfl

theorem udp_dnat_addr_of_udp (p : Packet) (a : Nat) (h : p.ip_protocol = Protocol.UDP) :
    udp_dnat_addr p a = ⟨Status.ok,
      { p with ip_checksum := checksum_adjust32 p.ip_checksum p.ip_dst a, ip_dst := a }⟩ := by
  unfold udp_dnat_addr; rw [if_pos h]; rfl

theorem udp_dnat_port_of_udp (p : Packet) (n : Nat) (h : p.ip_protocol = Protocol.UDP) :
    udp_dnat_port p n = ⟨Status.ok, { p with dst_port := n }⟩ := by
  unfold udp_dnat_port; rw [if_pos h]; rfl

theorem dispatchers_of_other (p : Packet) (s : Socket) (n : Nat)
    (h1 : p.ip_protocol ≠ Protocol.TCP) (h2 : p.ip_protocol ≠ Protocol.UDP) :
    snat p s = ⟨Status.ok, p⟩ ∧ dnat p s = ⟨Status.ok, p⟩ ∧ dnat_port p n = ⟨Status.ok, p⟩ := by
  refine ⟨?_, ?_, ?_⟩
  · unfold snat; rw [if_neg h1, if_neg h2]
  · unfold dnat; rw [if_neg h1, if_neg h2]
  · unfold dnat_port; rw [if_neg h1, if_neg h2]

theorem dnat_addr_of_other (p : Packet) (a : Nat) (h1 : p.ip_protocol ≠ Protocol.TCP)
    (h2 : p.ip_protocol ≠ Protocol.UDP) (h3 : p.ip_protocol ≠ Protocol.ICMPv4) :
    dnat_addr p a = ⟨Status.ok, p⟩ := by
  unfold dnat_addr; rw [if_neg h1, if_neg h2, if_neg h3]

/-! ## C5 -/

theorem recalc_ip_checksum_same (p : Packet) (a : Nat) (hip : p.ip_checksum < 65535) :
    recalc_ip_checksum p a a = p := by
  unfold recalc_ip_checksum
  simp only []
  rw [checksum_adjust32_same _ a hip]
  rfl

theorem recalc_tcp_checksum_same (p : Packet) (s : Socket) (hip : p.ip_checksum < 65535)
    (hl4 : p.l4_checksum < 65535) : recalc_tcp_checksum p s s = p := by
  have h := htons_lt s.port
  unfold recalc_tcp_checksum
  simp only []
  rw [recalc_ip_checksum_same p _ hip]
  unfold Packet.tcp_checksum
  rw [checksum_adjust32_same _ _ hl4, checksum_adjust16_same _ _ hl4 (by omega)]
  rfl

/-- C5 as stated fails for a stored checksum `0xFFFF`: rewriting the
destination address of an ICMPv4 packet to the address it already has turns
a stored IP checksum `0xFFFF` into `0x0000`. -/
theorem noop_translation_changes_ffff :
    icmp_ip_sum_ffff.ip_checksum = 65535 ∧
    (dnat_addr icmp_ip_sum_ffff icmp_ip_sum_ffff.ip_dst).pkt.ip_checksum = 0 ∧
    (dnat_addr icmp_ip_sum_ffff icmp_ip_sum_ffff.ip_dst).pkt ≠ icmp_ip_sum_ffff ∧
    (icmp_dnat icmp_ip_sum_ffff icmp_ip_sum_ffff.ip_dst).pkt ≠ icmp_ip_sum_ffff := by
  decide

theorem snat_same_tcp (p : Packet) (h : p.ip_protocol = Protocol.TCP)
    (hip : p.ip_checksum < 65535) (hl : p.l4_checksum < 65535) :
    snat p p.source = ⟨Status.ok, p⟩ := by
  rw [snat_of_tcp p _ h]
  unfold tcp_snat
  rw [if_pos h]
  simp only []
  rw [recalc_tcp_checksum_same p _ hip hl]
  rfl

theorem dnat_same_tcp (p : Packet) (h : p.ip_protocol = Protocol.TCP)
    (hip : p.ip_checksum < 65535) (hl : p.l4_checksum < 65535) :
    dnat p p.destination = ⟨Status.ok, p⟩ := by
  rw [dnat_of_tcp p _ h]
  unfold tcp_dnat
  rw [if_pos h]
  simp only []
  rw [recalc_tcp_checksum_same p _ hip hl]
  rfl

theorem dnat_addr_same_tcp (p : Packet) (h : p.ip_protocol = Protocol.TCP)
    (hip : p.ip_checksum < 65535) (hl : p.l4_checksum < 65535) :
    dnat_addr p p.ip_dst = ⟨Status.ok, p⟩ := by
  rw [dnat_addr_of_tcp p _ h]
  unfold tcp_dnat_addr
  rw [if_pos h]
  simp only []
  rw [recalc_ip_checksum_same p _ hip]
  unfold Packet.tcp_checksum
  rw [checksum_adjust32_same _ _ hl]
  rfl

theorem dnat_port_same_tcp (p : Packet) (h : p.ip_protocol = Protocol.TCP)
    (hl : p.l4_checksum < 65535) : dnat_port p p.dst_port = ⟨Status.ok, p⟩ := by
  have hb := htons_lt p.dst_port
  rw [dnat_port_of_tcp p _ h]
  unfold tcp_dnat_port
  rw [if_pos h]
  simp only []
  unfold Packet.tcp_checksum
  rw [checksum_adjust16_same _ _ hl (by omega)]
  rfl

theorem snat_same_udp (p : Packet) (h : p.ip_protocol = Protocol.UDP)
    (hip : p.ip_checksum < 65535) : snat p p.source = ⟨Status.ok, p⟩ := by
  rw [snat_of_udp p _ h]
  unfold udp_snat recalc_udp_checksum
  rw [if_pos h]
  simp only []
  have e : recalc_ip_checksum p p.ip_src p.source.address = p :=
    recalc_ip_checksum_same p p.ip_src hip
  rw [e]
  rfl

theorem dnat_same_udp (p : Packet) (h : p.ip_protocol = Protocol.UDP)
    (hip : p.ip_checksum < 65535) : dnat p p.destination = ⟨Status.ok, p⟩ := by
  rw [dnat_of_udp p _ h]
  unfold udp_dnat recalc_udp_checksum
  rw [if_pos h]
  simp only []
  have e : recalc_ip_checksum p p.ip_dst p.destination.address = p :=
    recalc_ip_checksum_same p p.ip_dst hip
  rw [e]
  rfl

theorem dnat_addr_same_udp (p : Packet) (h : p.ip_protocol = Protocol.UDP)
    (hip : p.ip_checksum < 65535) : dnat_addr p p.ip_dst = ⟨Status.ok, p⟩ := by
  rw [dnat_addr_of_udp p _ h]
  unfold udp_dnat_addr
  rw [if_pos h]
  simp only []
  rw [recalc_ip_checksum_same p _ hip]
  rfl

theorem icmp_snat_same (p : Packet) (hip : p.ip_checksum < 65535) :
    icmp_snat p p.ip_src = ⟨Status.ok, p⟩ := by
  unfold icmp_snat
  simp only []
  rw [recalc_ip_checksum_same p _ hip]
  rfl

theorem icmp_dnat_same (p : Packet) (hip : p.ip_checksum < 65535) :
    icmp_dnat p p.ip_dst = ⟨Status.ok, p⟩ := by
  unfold icmp_dnat
  simp only []
  rw [recalc_ip_checksum_same p _ hip]
  rfl

/-- C5, amended: translating a field to its current value completes and
leaves the packet equal to the original in every field and checksum,
provided no checksum that the translation adjusts is stored as `0xFFFF`.
`snat`/`dnat` with the current socket adjust the IP checksum on TCP and UDP
packets and the TCP checksum on TCP packets; `dnat` with the current
destination address adjusts the IP checksum on TCP, UDP and ICMPv4 packets
and the TCP checksum on TCP packets; `dnat` with the current destination
port adjusts only the TCP checksum on TCP packets; `icmp_snat`/`icmp_dnat`
with the current address adjust the IP checksum on every packet.  A checksum
stored as `0xFFFF` that the translation adjusts is `0x0000` after the
call. -/
theorem noop_translation_is_identity (p : Packet) (hp : p.wf) :
    ((p.ip_protocol = Protocol.TCP ∨ p.ip_protocol = Protocol.UDP → p.ip_checksum ≠ 65535) →
      (p.ip_protocol = Protocol.TCP → p.l4_checksum ≠ 65535) →
      snat p p.source = ⟨Status.ok, p⟩ ∧ dnat p p.destination = ⟨Status.ok, p⟩) ∧
    ((p.ip_protocol = Protocol.TCP ∨ p.ip_protocol = Protocol.UDP ∨
        p.ip_protocol = Protocol.ICMPv4 → p.ip_checksum ≠ 65535) →
      (p.ip_protocol = Protocol.TCP → p.l4_checksum ≠ 65535) →
      dnat_addr p p.ip_dst = ⟨Status.ok, p⟩) ∧
    ((p.ip_protocol = Protocol.TCP → p.l4_checksum ≠ 65535) →
      dnat_port p p.dst_port = ⟨Status.ok, p⟩) ∧
    (p.ip_checksum ≠ 65535 →
      icmp_snat p p.ip_src = ⟨Status.ok, p⟩ ∧ icmp_dnat p p.ip_dst = ⟨Status.ok, p⟩) ∧
    (p.ip_protocol = Protocol.TCP ∨ p.ip_protocol = Protocol.UDP → p.ip_checksum = 65535 →
      (snat p p.source).pkt.ip_checksum = 0 ∧ (dnat p p.destination).pkt.ip_checksum = 0) ∧
    (p.ip_protocol = Protocol.TCP ∨ p.ip_protocol = Protocol.UDP ∨
        p.ip_protocol = Protocol.ICMPv4 → p.ip_checksum = 65535 →
      (dnat_addr p p.ip_dst).pkt.ip_checksum = 0) ∧
    (p.ip_checksum = 65535 →
      (icmp_snat p p.ip_src).pkt.ip_checksum = 0 ∧
      (icmp_dnat p p.ip_dst).pkt.ip_checksum = 0) ∧
    (p.ip_protocol = Protocol.TCP → p.l4_checksum = 65535 →
      (snat p p.source).pkt.l4_checksum = 0 ∧ (dnat p p.destination).pkt.l4_checksum = 0 ∧
      (dnat_addr p p.ip_dst).pkt.l4_checksum = 0 ∧
      (dnat_port p p.dst_port).pkt.l4_checksum = 0) := by
  obtain ⟨_, _, _, _, _, _, _, _, h9, _, _, _, _, _, h15, _⟩ := hp
  have b1 := htons_lt p.src_port
  have b2 := htons_lt p.dst_port
  refine ⟨?_, ?_, ?_, ?_, ?_, ?_, ?_, ?_⟩
  · intro hip hl4
    by_cases h : p.ip_protocol = Protocol.TCP
    · have h1 := hip (Or.inl h)
      have h2 := hl4 h
      exact ⟨snat_same_tcp p h (by omega) (by omega), dnat_same_tcp p h (by omega) (by omega)⟩
    · by_cases hu : p.ip_protocol = Protocol.UDP
      · have h1 := hip (Or.inr hu)
        exact ⟨snat_same_udp p hu (by omega), dnat_same_udp p hu (by omega)⟩
      · exact ⟨(dispatchers_of_other p p.source 0 h hu).1,
          (dispatchers_of_other p p.destination 0 h hu).2.1⟩
  · intro hip hl4
    by_cases h : p.ip_protocol = Protocol.TCP
    · have h1 := hip (Or.inl h)
      have h2 := hl4 h
      exact dnat_addr_same_tcp p h (by omega) (by omega)
    · by_cases hu : p.ip_protocol = Protocol.UDP
      · have h1 := hip (Or.inr (Or.inl hu))
        exact dnat_addr_same_udp p hu (by omega)
      · by_cases hi : p.ip_protocol = Protocol.ICMPv4
        · have h1 := hip (Or.inr (Or.inr hi))
          rw [dnat_addr_of_icmp p _ hi]
          exact icmp_dnat_same p (by omega)
        · exact dnat_addr_of_other p _ h hu hi
  · intro hl4
    by_cases h : p.ip_protocol = Protocol.TCP
    · have h2 := hl4 h
      exact dnat_port_same_tcp p h (by omega)
    · by_cases hu : p.ip_protocol = Protocol.UDP
      · rw [dnat_port_of_udp p _ hu, udp_dnat_port_of_udp p _ hu]
      · exact (dispatchers_of_other p p.source p.dst_port h hu).2.2
  · intro hip
    exact ⟨icmp_snat_same p (by omega), icmp_dnat_same p (by omega)⟩
  · intro hproto hF
    rcases hproto with h | h
    · rw [snat_of_tcp p _ h, tcp_snat_of_tcp p _ h, dnat_of_tcp p _ h, tcp_dnat_of_tcp p _ h]
      constructor
      · show checksum_adjust32 p.ip_checksum p.ip_src p.ip_src = 0
        rw [hF]; exact checksum_adjust32_same_ffff _
      · show checksum_adjust32 p.ip_checksum p.ip_dst p.ip_dst = 0
        rw [hF]; exact checksum_adjust32_same_ffff _
    · rw [snat_of_udp p _ h, udp_snat_of_udp p _ h, dnat_of_udp p _ h, udp_dnat_of_udp p _ h]
      constructor
      · show checksum_adjust32 p.ip_checksum p.ip_src p.ip_src = 0
        rw [hF]; exact checksum_adjust32_same_ffff _
      · show checksum_adjust32 p.ip_checksum p.ip_dst p.ip_dst = 0
        rw [hF]; exact checksum_adjust32_same_ffff _
  · intro hproto hF
    rcases hproto with h | h | h
    · rw [dnat_addr_of_tcp p _ h, tcp_dnat_addr_of_tcp p _ h]
      show checksum_adjust32 p.ip_checksum p.ip_dst p.ip_dst = 0
      rw [hF]; exact checksum_adjust32_same_ffff _
    · rw [dnat_addr_of_udp p _ h, udp_dnat_addr_of_udp p _ h]
      show checksum_adjust32 p.ip_checksum p.ip_dst p.ip_dst = 0
      rw [hF]; exact checksum_adjust32_same_ffff _
    · rw [dnat_addr_of_icmp p _ h]
      show checksum_adjust32 p.ip_checksum p.ip_dst p.ip_dst = 0
      rw [hF]; exact checksum_adjust32_same_ffff _
  · intro hF
    constructor
    · show checksum_adjust32 p.ip_checksum p.ip_src p.ip_src = 0
      rw [hF]; exact checksum_adjust32_same_ffff _
    · show checksum_adjust32 p.ip_checksum p.ip_dst p.ip_dst = 0
      rw [hF]; exact checksum_adjust32_same_ffff _
  · intro h hF
    rw [snat_of_tcp p _ h, tcp_snat_of_tcp p _ h, dnat_of_tcp p _ h, tcp_dnat_of_tcp p _ h,
      dnat_addr_of_tcp p _ h, tcp_dnat_addr_of_tcp p _ h, dnat_port_of_tcp p _ h,
      tcp_dnat_port_of_tcp p _ h]
    refine ⟨?_, ?_, ?_, ?_⟩
    · show checksum_adjust16 (checksum_adjust32 p.l4_checksum p.ip_src p.ip_src)
        (htons p.src_port) (htons p.src_port) = 0
      rw [hF, checksum_adjust32_same_ffff]
      exact checksum_adjust16_same 0 _ (by omega) (by omega)
    · show checksum_adjust16 (checksum_adjust32 p.l4_checksum p.ip_dst p.ip_dst)
        (htons p.dst_port) (htons p.dst_port) = 0
      rw [hF, checksum_adjust32_same_ffff]
      exact checksum_adjust16_same 0 _ (by omega) (by omega)
    · show checksum_adjust32 p.l4_checksum p.ip_dst p.ip_dst = 0
      rw [hF]; exact checksum_adjust32_same_ffff _
    · show checksum_adjust16 p.l4_checksum (htons p.dst_port) (htons p.dst_port) = 0
      rw [hF]; exact checksum_adjust16_same_ffff _ (by omega)

/-- C5, amended, at the TCP packet of the scenario, whose checksums are not
`0xFFFF`, at the UDP and ICMPv4 packets storing `0xFFFF` as IP checksum and
at the TCP packet storing `0xFFFF` as TCP checksum. -/
theorem noop_translation_is_identity_witness :
    (snat scenario_tcp scenario_tcp.source = ⟨Status.ok, scenario_tcp⟩ ∧
      dnat scenario_tcp scenario_tcp.destination = ⟨Status.ok, scenario_tcp⟩) ∧
    dnat_addr scenario_tcp scenario_tcp.ip_dst = ⟨Status.ok, scenario_tcp⟩ ∧
    dnat_port scenario_tcp scenario_tcp.dst_port = ⟨Status.ok, scenario_tcp⟩ ∧
    (icmp_snat scenario_tcp scenario_tcp.ip_src = ⟨Status.ok, scenario_tcp⟩ ∧
      icmp_dnat scenario_tcp scenario_tcp.ip_dst = ⟨Status.ok, scenario_tcp⟩) ∧
    ((snat udp_ip_sum_ffff udp_ip_sum_ffff.source).pkt.ip_checksum = 0 ∧
      (dnat udp_ip_sum_ffff udp_ip_sum_ffff.destination).pkt.ip_checksum = 0) ∧
    (dnat_addr icmp_ip_sum_ffff icmp_ip_sum_ffff.ip_dst).pkt.ip_checksum = 0 ∧
    ((icmp_snat icmp_ip_sum_ffff icmp_ip_sum_ffff.ip_src).pkt.ip_checksum = 0 ∧
      (icmp_dnat icmp_ip_sum_ffff icmp_ip_sum_ffff.ip_dst).pkt.ip_checksum = 0) ∧
    ((snat tcp_sum_ffff tcp_sum_ffff.source).pkt.l4_checksum = 0 ∧
      (dnat tcp_sum_ffff tcp_sum_ffff.destination).pkt.l4_checksum = 0 ∧
      (dnat_addr tcp_sum_ffff tcp_sum_ffff.ip_dst).pkt.l4_checksum = 0 ∧
      (dnat_port tcp_sum_ffff tcp_sum_ffff.dst_port).pkt.l4_checksum = 0) :=
  have ht := noop_translation_is_identity scenario_tcp (by decide)
  have hi := noop_translation_is_identity icmp_ip_sum_ffff (by decide)
  have hf := noop_translation_is_identity tcp_sum_ffff (by decide)
  have hu := noop_translation_is_identity udp_ip_sum_ffff (by decide)
  ⟨ht.1 (by decide) (by decide), ht.2.1 (by decide) (by decide), ht.2.2.1 (by decide),
    ht.2.2.2.1 (by decide), hu.2.2.2.2.1 (Or.inr (by decide)) (by decide),
    hi.2.2.2.2.2.1 (Or.inr (Or.inr (by decide))) (by decide),
    hi.2.2.2.2.2.2.1 (by decide), hf.2.2.2.2.2.2.2 (by decide) (by decide)⟩

/-! ## C6 -/

theorem ip_addr_round_trip_dst (p : Packet) (b : Nat) (hip : p.ip_checksum < 65535) :
    (recalc_ip_checksum ((recalc_ip_checksum p p.ip_dst b).set_ip_dst b) b p.ip_dst).set_ip_dst
      p.ip_dst = p := by
  apply Packet.ext <;>
    simp only [recalc_tcp_checksum, recalc_ip_checksum, Packet.set_ip_checksum,
      Packet.set_checksum, Packet.set_ip_dst, Packet.set_ip_src, Packet.set_source,
      Packet.set_destination, Packet.set_src_port, Packet.set_dst_port, Packet.source,
      Packet.destination, Packet.tcp_checksum]
  exact checksum_adjust32_round_trip p.ip_checksum p.ip_dst b hip

theorem ip_addr_round_trip_src (p : Packet) (b : Nat) (hip : p.ip_checksum < 65535) :
    (recalc_ip_checksum ((recalc_ip_checksum p p.ip_src b).set_ip_src b) b p.ip_src).set_ip_src
      p.ip_src = p := by
  apply Packet.ext <;>
    simp only [recalc_tcp_checksum, recalc_ip_checksum, Packet.set_ip_checksum,
      Packet.set_checksum, Packet.set_ip_dst, Packet.set_ip_src, Packet.set_source,
      Packet.set_destination, Packet.set_src_port, Packet.set_dst_port, Packet.source,
      Packet.destination, Packet.tcp_checksum]
  exact checksum_adjust32_round_trip p.ip_checksum p.ip_src b hip

theorem tcp_dnat_addr_round_trip (p : Packet) (b : Nat) (htcp : p.ip_protocol = Protocol.TCP)
    (hip : p.ip_checksum < 65535) (hl4 : p.l4_checksum < 65535) :
    tcp_dnat_addr (tcp_dnat_addr p b).pkt p.ip_dst = ⟨Status.ok, p⟩ := by
  have e1 : tcp_dnat_addr p b = ⟨Status.ok,
      (((recalc_ip_checksum p p.ip_dst b).set_checksum
        (checksum_adjust32 p.l4_checksum p.ip_dst b)).set_ip_dst b)⟩ := by
    unfold tcp_dnat_addr; rw [if_pos htcp]; rfl
  rw [e1]
  unfold tcp_dnat_addr
  rw [if_pos (show (((recalc_ip_checksum p p.ip_dst b).set_checksum
        (checksum_adjust32 p.l4_checksum p.ip_dst b)).set_ip_dst b).ip_protocol
      = Protocol.TCP from htcp)]
  simp only []
  refine congrArg (Outcome.mk Status.ok) ?_
  apply Packet.ext <;>
    simp only [recalc_tcp_checksum, recalc_ip_checksum, Packet.set_ip_checksum,
      Packet.set_checksum, Packet.set_ip_dst, Packet.set_ip_src, Packet.set_source,
      Packet.set_destination, Packet.set_src_port, Packet.set_dst_port, Packet.source,
      Packet.destination, Packet.tcp_checksum]
  · exact checksum_adjust32_round_trip p.ip_checksum p.ip_dst b hip
  · exact checksum_adjust32_round_trip p.l4_checksum p.ip_dst b hl4

theorem udp_dnat_addr_round_trip (p : Packet) (b : Nat) (hudp : p.ip_protocol = Protocol.UDP)
    (hip : p.ip_checksum < 65535) :
    udp_dnat_addr (udp_dnat_addr p b).pkt p.ip_dst = ⟨Status.ok, p⟩ := by
  have e1 : udp_dnat_addr p b = ⟨Status.ok, (recalc_ip_checksum p p.ip_dst b).set_ip_dst b⟩ := by
    unfold udp_dnat_addr; rw [if_pos hudp]
  rw [e1]
  unfold udp_dnat_addr
  rw [if_pos (show ((recalc_ip_checksum p p.ip_dst b).set_ip_dst b).ip_protocol
      = Protocol.UDP from hudp)]
  simp only []
  refine congrArg (Outcome.mk Status.ok) ?_
  exact ip_addr_round_trip_dst p b hip

theorem icmp_dnat_round_trip (p : Packet) (b : Nat) (hip : p.ip_checksum < 65535) :
    icmp_dnat (icmp_dnat p b).pkt p.ip_dst = ⟨Status.ok, p⟩ := by
  unfold icmp_dnat
  simp only []
  refine congrArg (Outcome.mk Status.ok) ?_
  exact ip_addr_round_trip_dst p b hip

theorem icmp_snat_round_trip (p : Packet) (b : Nat) (hip : p.ip_checksum < 65535) :
    icmp_snat (icmp_snat p b).pkt p.ip_src = ⟨Status.ok, p⟩ := by
  unfold icmp_snat
  simp only []
  refine congrArg (Outcome.mk Status.ok) ?_
  exact ip_addr_round_trip_src p b hip

theorem tcp_snat_round_trip (p : Packet) (s : Socket) (htcp : p.ip_protocol = Protocol.TCP)
    (hip : p.ip_checksum < 65535) (hl4 : p.l4_checksum < 65535) :
    tcp_snat (tcp_snat p s).pkt p.source = ⟨Status.ok, p⟩ := by
  have e1 : tcp_snat p s = ⟨Status.ok, (recalc_tcp_checksum p p.source s).set_source s⟩ := by
    unfold tcp_snat; rw [if_pos htcp]
  have b1 := htons_lt p.src_port
  have b2 := htons_lt s.port
  rw [e1]
  unfold tcp_snat
  rw [if_pos (show ((recalc_tcp_checksum p p.source s).set_source s).ip_protocol
      = Protocol.TCP from htcp)]
  simp only []
  refine congrArg (Outcome.mk Status.ok) ?_
  apply Packet.ext <;>
    simp only [recalc_tcp_checksum, recalc_ip_checksum, Packet.set_ip_checksum,
      Packet.set_checksum, Packet.set_ip_dst, Packet.set_ip_src, Packet.set_source,
      Packet.set_destination, Packet.set_src_port, Packet.set_dst_port, Packet.source,
      Packet.destination, Packet.tcp_checksum]
  · exact checksum_adjust32_round_trip p.ip_checksum p.ip_src s.address hip
  · exact checksum_adjust_socket_round_trip p.l4_checksum p.ip_src s.address
      (htons p.src_port) (htons s.port) hl4 (by omega) (by omega)

theorem tcp_dnat_round_trip (p : Packet) (s : Socket) (htcp : p.ip_protocol = Protocol.TCP)
    (hip : p.ip_checksum < 65535) (hl4 : p.l4_checksum < 65535) :
    tcp_dnat (tcp_dnat p s).pkt p.destination = ⟨Status.ok, p⟩ := by
  have e1 : tcp_dnat p s
      = ⟨Status.ok, (recalc_tcp_checksum p p.destination s).set_destination s⟩ := by
    unfold tcp_dnat; rw [if_pos htcp]
  have b1 := htons_lt p.dst_port
  have b2 := htons_lt s.port
  rw [e1]
  unfold tcp_dnat
  rw [if_pos (show ((recalc_tcp_checksum p p.destination s).set_destination s).ip_protocol
      = Protocol.TCP from htcp)]
  simp only []
  refine congrArg (Outcome.mk Status.ok) ?_
  apply Packet.ext <;>
    simp only [recalc_tcp_checksum, recalc_ip_checksum, Packet.set_ip_checksum,
      Packet.set_checksum, Packet.set_ip_dst, Packet.set_ip_src, Packet.set_source,
      Packet.set_destination, Packet.set_src_port, Packet.set_dst_port, Packet.source,
      Packet.destination, Packet.tcp_checksum]
  · exact checksum_adjust32_round_trip p.ip_checksum p.ip_dst s.address hip
  · exact checksum_adjust_socket_round_trip p.l4_checksum p.ip_dst s.address
      (htons p.dst_port) (htons s.port) hl4 (by omega) (by omega)

/-- C6 as stated fails for a stored checksum `0xFFFF`: on a TCP packet whose
stored TCP checksum is `0xFFFF`, rewriting the destination address 10.0.0.1
to 203.0.113.9 and back leaves `0x0000` as TCP checksum. -/
theorem address_round_trip_changes_ffff :
    tcp_sum_ffff.ip_dst = 16777226 ∧ tcp_sum_ffff.l4_checksum = 65535 ∧
    (dnat_addr (dnat_addr tcp_sum_ffff 158400715).pkt 16777226).pkt.l4_checksum = 0 ∧
    (dnat_addr (dnat_addr tcp_sum_ffff 158400715).pkt 16777226).pkt ≠ tcp_sum_ffff := by
  decide

theorem dnat_addr_round_trip (p : Packet) (b : Nat)
    (hip : p.ip_protocol = Protocol.TCP ∨ p.ip_protocol = Protocol.UDP ∨
      p.ip_protocol = Protocol.ICMPv4 → p.ip_checksum < 65535)
    (hl4 : p.ip_protocol = Protocol.TCP → p.l4_checksum < 65535) :
    dnat_addr (dnat_addr p b).pkt p.ip_dst = ⟨Status.ok, p⟩ := by
  by_cases h1 : p.ip_protocol = Protocol.TCP
  · have hq : (tcp_dnat_addr p b).pkt.ip_protocol = Protocol.TCP := by
      rw [tcp_dnat_addr_of_tcp p b h1]; exact h1
    rw [dnat_addr_of_tcp p b h1, dnat_addr_of_tcp _ _ hq]
    exact tcp_dnat_addr_round_trip p b h1 (hip (Or.inl h1)) (hl4 h1)
  · by_cases h2 : p.ip_protocol = Protocol.UDP
    · have hq : (udp_dnat_addr p b).pkt.ip_protocol = Protocol.UDP := by
        rw [udp_dnat_addr_of_udp p b h2]; exact h2
      rw [dnat_addr_of_udp p b h2, dnat_addr_of_udp _ _ hq]
      exact udp_dnat_addr_round_trip p b h2 (hip (Or.inr (Or.inl h2)))
    · by_cases h3 : p.ip_protocol = Protocol.ICMPv4
      · have hq : (icmp_dnat p b).pkt.ip_protocol = Protocol.ICMPv4 := h3
        rw [dnat_addr_of_icmp p b h3, dnat_addr_of_icmp _ _ hq]
        exact icmp_dnat_round_trip p b (hip (Or.inr (Or.inr h3)))
      · rw [dnat_addr_of_other p b h1 h2 h3]
        exact dnat_addr_of_other p p.ip_dst h1 h2 h3

/-- C6, amended: rewriting the destination address to `b` with `dnat` and
back to the original address completes both times and gives back the
original packet in every field and checksum, provided no checksum that the
rewrite adjusts is stored as `0xFFFF` (the IP checksum on TCP, UDP and ICMPv4
packets, the TCP checksum on TCP packets); likewise `icmp_snat` and
`icmp_dnat` there and back, provided the stored IP checksum is not `0xFFFF`,
and on a TCP packet `tcp_snat` and `tcp_dnat` to a socket `s` and back to the
original socket, provided neither stored checksum is `0xFFFF`.  A checksum
stored as `0xFFFF` that the round trip adjusts is `0x0000` afterwards. -/
theorem address_round_trip_restores (p : Packet) (b : Nat) (s : Socket) (hp : p.wf) :
    ((p.ip_protocol = Protocol.TCP ∨ p.ip_protocol = Protocol.UDP ∨
        p.ip_protocol = Protocol.ICMPv4 → p.ip_checksum ≠ 65535) →
      (p.ip_protocol = Protocol.TCP → p.l4_checksum ≠ 65535) →
      (dnat_addr p b).status = Status.ok ∧
      dnat_addr (dnat_addr p b).pkt p.ip_dst = ⟨Status.ok, p⟩) ∧
    (p.ip_checksum ≠ 65535 →
      ((icmp_snat p b).status = Status.ok ∧
        icmp_snat (icmp_snat p b).pkt p.ip_src = ⟨Status.ok, p⟩) ∧
      ((icmp_dnat p b).status = Status.ok ∧
        icmp_dnat (icmp_dnat p b).pkt p.ip_dst = ⟨Status.ok, p⟩)) ∧
    (p.ip_protocol = Protocol.TCP → p.ip_checksum ≠ 65535 → p.l4_checksum ≠ 65535 →
      ((tcp_snat p s).status = Status.ok ∧
        tcp_snat (tcp_snat p s).pkt p.source = ⟨Status.ok, p⟩) ∧
      ((tcp_dnat p s).status = Status.ok ∧
        tcp_dnat (tcp_dnat p s).pkt p.destination = ⟨Status.ok, p⟩)) ∧
    (p.ip_checksum = 65535 →
      (p.ip_protocol = Protocol.TCP ∨ p.ip_protocol = Protocol.UDP ∨
          p.ip_protocol = Protocol.ICMPv4 →
        (dnat_addr (dnat_addr p b).pkt p.ip_dst).pkt.ip_checksum = 0) ∧
      (icmp_snat (icmp_snat p b).pkt p.ip_src).pkt.ip_checksum = 0 ∧
      (icmp_dnat (icmp_dnat p b).pkt p.ip_dst).pkt.ip_checksum = 0 ∧
      (p.ip_protocol = Protocol.TCP →
        (tcp_snat (tcp_snat p s).pkt p.source).pkt.ip_checksum = 0 ∧
        (tcp_dnat (tcp_dnat p s).pkt p.destination).pkt.ip_checksum = 0)) ∧
    (p.ip_protocol = Protocol.TCP → p.l4_checksum = 65535 →
      (dnat_addr (dnat_addr p b).pkt p.ip_dst).pkt.l4_checksum = 0 ∧
      (tcp_snat (tcp_snat p s).pkt p.source).pkt.l4_checksum = 0 ∧
      (tcp_dnat (tcp_dnat p s).pkt p.destination).pkt.l4_checksum = 0) := by
  obtain ⟨_, _, _, _, _, _, _, _, h9, _, _, _, _, _, h15, _⟩ := hp
  have b1 := htons_lt p.src_port
  have b2 := htons_lt p.dst_port
  have b3 := htons_lt s.port
  have qa : ∀ h : p.ip_protocol = Protocol.TCP,
      (dnat_addr p b).pkt.ip_protocol = Protocol.TCP := by
    intro h; rw [dnat_addr_of_tcp p b h, tcp_dnat_addr_of_tcp p b h]; exact h
  have qs : ∀ h : p.ip_protocol = Protocol.TCP,
      (tcp_snat p s).pkt.ip_protocol = Protocol.TCP := by
    intro h; rw [tcp_snat_of_tcp p s h]; exact h
  have qd : ∀ h : p.ip_protocol = Protocol.TCP,
      (tcp_dnat p s).pkt.ip_protocol = Protocol.TCP := by
    intro h; rw [tcp_dnat_of_tcp p s h]; exact h
  refine ⟨?_, ?_, ?_, ?_, ?_⟩
  · intro hip hl4
    refine ⟨status_dnat_addr p b, dnat_addr_round_trip p b ?_ ?_⟩
    · intro h; have := hip h; omega
    · intro h; have := hl4 h; omega
  · intro hip
    exact ⟨⟨rfl, icmp_snat_round_trip p b (by omega)⟩,
      ⟨rfl, icmp_dnat_round_trip p b (by omega)⟩⟩
  · intro h hip hl4
    refine ⟨⟨?_, tcp_snat_round_trip p s h (by omega) (by omega)⟩,
      ⟨?_, tcp_dnat_round_trip p s h (by omega) (by omega)⟩⟩
    · rw [tcp_snat_of_tcp p s h]
    · rw [tcp_dnat_of_tcp p s h]
  · intro hF
    refine ⟨?_, ?_, ?_, ?_⟩
    · intro hproto
      rcases hproto with h | h | h
      · rw [dnat_addr_of_tcp _ _ (qa h), tcp_dnat_addr_of_tcp _ _ (qa h),
          dnat_addr_of_tcp p b h, tcp_dnat_addr_of_tcp p b h]
        show checksum_adjust32 (checksum_adjust32 p.ip_checksum p.ip_dst b) b p.ip_dst = 0
        rw [hF]; exact checksum_adjust32_round_trip_ffff _ _
      · have hq : (dnat_addr p b).pkt.ip_protocol = Protocol.UDP := by
          rw [dnat_addr_of_udp p b h, udp_dnat_addr_of_udp p b h]; exact h
        rw [dnat_addr_of_udp _ _ hq, udp_dnat_addr_of_udp _ _ hq,
          dnat_addr_of_udp p b h, udp_dnat_addr_of_udp p b h]
        show checksum_adjust32 (checksum_adjust32 p.ip_checksum p.ip_dst b) b p.ip_dst = 0
        rw [hF]; exact checksum_adjust32_round_trip_ffff _ _
      · have hq : (dnat_addr p b).pkt.ip_protocol = Protocol.ICMPv4 := by
          rw [dnat_addr_of_icmp p b h]; exact h
        rw [dnat_addr_of_icmp _ _ hq, dnat_addr_of_icmp p b h]
        show checksum_adjust32 (checksum_adjust32 p.ip_checksum p.ip_dst b) b p.ip_dst = 0
        rw [hF]; exact checksum_adjust32_round_trip_ffff _ _
    · show checksum_adjust32 (checksum_adjust32 p.ip_checksum p.ip_src b) b p.ip_src = 0
      rw [hF]; exact checksum_adjust32_round_trip_ffff _ _
    · show checksum_adjust32 (checksum_adjust32 p.ip_checksum p.ip_dst b) b p.ip_dst = 0
      rw [hF]; exact checksum_adjust32_round_trip_ffff _ _
    · intro h
      rw [tcp_snat_of_tcp _ _ (qs h), tcp_dnat_of_tcp _ _ (qd h), tcp_snat_of_tcp p s h,
        tcp_dnat_of_tcp p s h]
      constructor
      · show checksum_adjust32 (checksum_adjust32 p.ip_checksum p.ip_src s.address)
          s.address p.ip_src = 0
        rw [hF]; exact checksum_adjust32_round_trip_ffff _ _
      · show checksum_adjust32 (checksum_adjust32 p.ip_checksum p.ip_dst s.address)
          s.address p.ip_dst = 0
        rw [hF]; exact checksum_adjust32_round_trip_ffff _ _
  · intro h hF
    rw [dnat_addr_of_tcp _ _ (qa h), tcp_dnat_addr_of_tcp _ _ (qa h),
      dnat_addr_of_tcp p b h, tcp_dnat_addr_of_tcp p b h,
      tcp_snat_of_tcp _ _ (qs h), tcp_dnat_of_tcp _ _ (qd h), tcp_snat_of_tcp p s h,
      tcp_dnat_of_tcp p s h]
    refine ⟨?_, ?_, ?_⟩
    · show checksum_adjust32 (checksum_adjust32 p.l4_checksum p.ip_dst b) b p.ip_dst = 0
      rw [hF]; exact checksum_adjust32_round_trip_ffff _ _
    · show checksum_adjust16 (checksum_adjust32
          (checksum_adjust16 (checksum_adjust32 p.l4_checksum p.ip_src s.address)
            (htons p.src_port) (htons s.port)) s.address p.ip_src)
          (htons s.port) (htons p.src_port) = 0
      rw [hF]
      exact checksum_adjust_socket_round_trip_ffff _ _ _ _ (by omega) (by omega)
    · show checksum_adjust16 (checksum_adjust32
          (checksum_adjust16 (checksum_adjust32 p.l4_checksum p.ip_dst s.address)
            (htons p.dst_port) (htons s.port)) s.address p.ip_dst)
          (htons s.port) (htons p.dst_port) = 0
      rw [hF]
      exact checksum_adjust_socket_round_trip_ffff _ _ _ _ (by omega) (by omega)

/-- C6, amended, at the TCP packet of the scenario (address 203.0.113.9 and
socket 203.0.113.9:50000, there and back) and at the TCP packets storing
`0xFFFF` as IP checksum and as TCP checksum. -/
theorem address_round_trip_restores_witness :
    ((dnat_addr scenario_tcp 158400715).status = Status.ok ∧
      dnat_addr (dnat_addr scenario_tcp 158400715).pkt scenario_tcp.ip_dst
        = ⟨Status.ok, scenario_tcp⟩) ∧
    (((icmp_snat scenario_tcp 158400715).status = Status.ok ∧
        icmp_snat (icmp_snat scenario_tcp 158400715).pkt scenario_tcp.ip_src
          = ⟨Status.ok, scenario_tcp⟩) ∧
      ((icmp_dnat scenario_tcp 158400715).status = Status.ok ∧
        icmp_dnat (icmp_dnat scenario_tcp 158400715).pkt scenario_tcp.ip_dst
          = ⟨Status.ok, scenario_tcp⟩)) ∧
    (((tcp_snat scenario_tcp scenario_socket).status = Status.ok ∧
        tcp_snat (tcp_snat scenario_tcp scenario_socket).pkt scenario_tcp.source
          = ⟨Status.ok, scenario_tcp⟩) ∧
      ((tcp_dnat scenario_tcp scenario_socket).status = Status.ok ∧
        tcp_dnat (tcp_dnat scenario_tcp scenario_socket).pkt scenario_tcp.destination
          = ⟨Status.ok, scenario_tcp⟩)) ∧
    ((dnat_addr (dnat_addr tcp_ip_sum_ffff 158400715).pkt tcp_ip_sum_ffff.ip_dst).pkt.ip_checksum
        = 0 ∧
      (icmp_snat (icmp_snat tcp_ip_sum_ffff 158400715).pkt tcp_ip_sum_ffff.ip_src).pkt.ip_checksum
        = 0 ∧
      (icmp_dnat (icmp_dnat tcp_ip_sum_ffff 158400715).pkt tcp_ip_sum_ffff.ip_dst).pkt.ip_checksum
        = 0 ∧
      (tcp_snat (tcp_snat tcp_ip_sum_ffff scenario_socket).pkt
          tcp_ip_sum_ffff.source).pkt.ip_checksum = 0 ∧
      (tcp_dnat (tcp_dnat tcp_ip_sum_ffff scenario_socket).pkt
          tcp_ip_sum_ffff.destination).pkt.ip_checksum = 0) ∧
    ((dnat_addr (dnat_addr tcp_sum_ffff 158400715).pkt tcp_sum_ffff.ip_dst).pkt.l4_checksum = 0 ∧
      (tcp_snat (tcp_snat tcp_sum_ffff scenario_socket).pkt tcp_sum_ffff.source).pkt.l4_checksum
        = 0 ∧
      (tcp_dnat (tcp_dnat tcp_sum_ffff scenario_socket).pkt
          tcp_sum_ffff.destination).pkt.l4_checksum = 0) :=
  have ht := address_round_trip_restores scenario_tcp 158400715 scenario_socket (by decide)
  have hi := (address_round_trip_restores tcp_ip_sum_ffff 158400715 scenario_socket
    (by decide)).2.2.2.1 (by decide)
  have hf := address_round_trip_restores tcp_sum_ffff 158400715 scenario_socket (by decide)
  ⟨ht.1 (by decide) (by decide), ht.2.1 (by decide),
    ht.2.2.1 (by decide) (by decide) (by decide),
    ⟨hi.1 (Or.inl (by decide)), hi.2.1, hi.2.2.1, (hi.2.2.2 (by decide)).1,
      (hi.2.2.2 (by decide)).2⟩,
    hf.2.2.2.2 (by decide) (by decide)⟩

/-! ## C7 -/

theorem expects_iff (p : Packet) (proto : Nat) (q : Packet) :
    ((if p.ip_protocol = proto then (⟨Status.ok, q⟩ : Outcome)
        else ⟨Status.expects_failed, p⟩).status = Status.expects_failed
      ↔ p.ip_protocol ≠ proto) ∧
    ((if p.ip_protocol = proto then (⟨Status.ok, q⟩ : Outcome)
        else ⟨Status.expects_failed, p⟩).status = Status.expects_failed →
      (if p.ip_protocol = proto then (⟨Status.ok, q⟩ : Outcome)
        else ⟨Status.expects_failed, p⟩).pkt = p) := by
  by_cases h : p.ip_protocol = proto
  · rw [if_pos h]
    exact ⟨⟨fun hc => (by cases hc), fun hn => absurd h hn⟩, fun hc => (by cases hc)⟩
  · rw [if_neg h]
    exact ⟨⟨fun _ => h, fun _ => rfl⟩, fun _ => rfl⟩

/-- C7: each TCP entry point stops at its `Expects` exactly when the
protocol tag of the packet is not TCP, each UDP entry point exactly when it
is not UDP; a call that stops there leaves the packet as it was. -/
theorem tcp_udp_fail_fast_iff_mismatch (p : Packet) (s : Socket) (a n : Nat) :
    (((tcp_snat p s).status = Status.expects_failed ↔ p.ip_protocol ≠ Protocol.TCP) ∧
      ((tcp_snat p s).status = Status.expects_failed → (tcp_snat p s).pkt = p)) ∧
    (((tcp_dnat p s).status = Status.expects_failed ↔ p.ip_protocol ≠ Protocol.TCP) ∧
      ((tcp_dnat p s).status = Status.expects_failed → (tcp_dnat p s).pkt = p)) ∧
    (((tcp_dnat_addr p a).status = Status.expects_failed ↔ p.ip_protocol ≠ Protocol.TCP) ∧
      ((tcp_dnat_addr p a).status = Status.expects_failed → (tcp_dnat_addr p a).pkt = p)) ∧
    (((tcp_dnat_port p n).status = Status.expects_failed ↔ p.ip_protocol ≠ Protocol.TCP) ∧
      ((tcp_dnat_port p n).status = Status.expects_failed → (tcp_dnat_port p n).pkt = p)) ∧
    (((udp_snat p s).status = Status.expects_failed ↔ p.ip_protocol ≠ Protocol.UDP) ∧
      ((udp_snat p s).status = Status.expects_failed → (udp_snat p s).pkt = p)) ∧
    (((udp_dnat p s).status = Status.expects_failed ↔ p.ip_protocol ≠ Protocol.UDP) ∧
      ((udp_dnat p s).status = Status.expects_failed → (udp_dnat p s).pkt = p)) ∧
    (((udp_dnat_addr p a).status = Status.expects_failed ↔ p.ip_protocol ≠ Protocol.UDP) ∧
      ((udp_dnat_addr p a).status = Status.expects_failed → (udp_dnat_addr p a).pkt = p)) ∧
    (((udp_dnat_port p n).status = Status.expects_failed ↔ p.ip_protocol ≠ Protocol.UDP) ∧
      ((udp_dnat_port p n).status = Status.expects_failed → (udp_dnat_port p n).pkt = p)) :=
  ⟨expects_iff p Protocol.TCP _, expects_iff p Protocol.TCP _, expects_iff p Protocol.TCP _,
    expects_iff p Protocol.TCP _, expects_iff p Protocol.UDP _, expects_iff p Protocol.UDP _,
    expects_iff p Protocol.UDP _, expects_iff p Protocol.UDP _⟩

/-! ## C8 -/

/-- C8: `icmp_snat` and `icmp_dnat` carry no `Expects`, unlike the eight TCP
and UDP entry points.  On the TCP packet of the scenario, whose tag is not
ICMPv4, they do not stop: they complete, write the address and the IP
checksum, and leave the stored TCP checksum 60555 behind, which no longer
matches the recomputation over the new pseudo-header (59225 after
`icmp_snat`, 58201 after `icmp_dnat`). -/
theorem icmp_entry_points_accept_tcp :
    scenario_tcp.ip_protocol ≠ Protocol.ICMPv4 ∧
    (icmp_snat scenario_tcp 158400715).status = Status.ok ∧
    (icmp_snat scenario_tcp 158400715).pkt.ip_src = 158400715 ∧
    (icmp_snat scenario_tcp 158400715).pkt.ip_checksum = 46016 ∧
    scenario_tcp.ip_src = 83886090 ∧ scenario_tcp.ip_checksum = 47346 ∧
    (icmp_dnat scenario_tcp 158400715).status = Status.ok ∧
    (icmp_dnat scenario_tcp 158400715).pkt.ip_dst = 158400715 ∧
    (icmp_dnat scenario_tcp 158400715).pkt.ip_checksum = 44992 ∧
    scenario_tcp.ip_dst = 16777226 ∧
    tcp_checksum_valid scenario_tcp ∧
    (icmp_snat scenario_tcp 158400715).pkt.tcp_checksum = 60555 ∧
    compute_l4_checksum (icmp_snat scenario_tcp 158400715).pkt = 59225 ∧
    ¬ tcp_checksum_valid (icmp_snat scenario_tcp 158400715).pkt ∧
    (icmp_dnat scenario_tcp 158400715).pkt.tcp_checksum = 60555 ∧
    compute_l4_checksum (icmp_dnat scenario_tcp 158400715).pkt = 58201 ∧
    ¬ tcp_checksum_valid (icmp_dnat scenario_tcp 158400715).pkt := by
  decide

/-! ## C9 -/

/-- C9: on a packet that is neither TCP nor UDP, `snat(Socket)`,
`dnat(Socket)` and `dnat(port)` complete and leave the packet unchanged; on
a packet that is none of TCP, UDP, ICMPv4, so does `dnat(Addr)`. -/
theorem unsupported_combinations_are_noops (p : Packet) (s : Socket) (a n : Nat)
    (h1 : p.ip_protocol ≠ Protocol.TCP) (h2 : p.ip_protocol ≠ Protocol.UDP) :
    snat p s = ⟨Status.ok, p⟩ ∧ dnat p s = ⟨Status.ok, p⟩ ∧
    dnat_port p n = ⟨Status.ok, p⟩ ∧
    (p.ip_protocol ≠ Protocol.ICMPv4 → dnat_addr p a = ⟨Status.ok, p⟩) := by
  refine ⟨?_, ?_, ?_, ?_⟩
  · unfold snat; rw [if_neg h1, if_neg h2]
  · unfold dnat; rw [if_neg h1, if_neg h2]
  · unfold dnat_port; rw [if_neg h1, if_neg h2]
  · intro h3; unfold dnat_addr; rw [if_neg h1, if_neg h2, if_neg h3]

/-- C9 at a GRE packet, with the socket, address and port of the scenario. -/
theorem unsupported_combinations_are_noops_witness :
    snat scenario_gre scenario_socket = ⟨Status.ok, scenario_gre⟩ ∧
    dnat scenario_gre scenario_socket = ⟨Status.ok, scenario_gre⟩ ∧
    dnat_port scenario_gre 8080 = ⟨Status.ok, scenario_gre⟩ ∧
    dnat_addr scenario_gre 158400715 = ⟨Status.ok, scenario_gre⟩ :=
  have h := unsupported_combinations_are_noops scenario_gre scenario_socket 158400715 8080
    (by decide) (by decide)
  ⟨h.1, h.2.1, h.2.2.1, h.2.2.2 (by decide)⟩

/-! ## C10 -/

/-- C10: an address-only rewrite (`dnat(Addr)`, `tcp_dnat(Addr)`,
`udp_dnat(Addr)`, `icmp_snat`, `icmp_dnat`) leaves both port fields as they
were, and a port-only rewrite (`dnat(port)`, `tcp_dnat(port)`,
`udp_dnat(port)`) leaves both address fields as they were, on every packet
and whether or not the call completes. -/
theorem address_and_port_rewrites_are_isolated (p : Packet) (a n : Nat) :
    ((dnat_addr p a).pkt.src_port = p.src_port ∧ (dnat_addr p a).pkt.dst_port = p.dst_port) ∧
    ((tcp_dnat_addr p a).pkt.src_port = p.src_port ∧
      (tcp_dnat_addr p a).pkt.dst_port = p.dst_port) ∧
    ((udp_dnat_addr p a).pkt.src_port = p.src_port ∧
      (udp_dnat_addr p a).pkt.dst_port = p.dst_port) ∧
    ((icmp_snat p a).pkt.src_port = p.src_port ∧ (icmp_snat p a).pkt.dst_port = p.dst_port) ∧
    ((icmp_dnat p a).pkt.src_port = p.src_port ∧ (icmp_dnat p a).pkt.dst_port = p.dst_port) ∧
    ((dnat_port p n).pkt.ip_src = p.ip_src ∧ (dnat_port p n).pkt.ip_dst = p.ip_dst) ∧
    ((tcp_dnat_port p n).pkt.ip_src = p.ip_src ∧ (tcp_dnat_port p n).pkt.ip_dst = p.ip_dst) ∧
    ((udp_dnat_port p n).pkt.ip_src = p.ip_src ∧ (udp_dnat_port p n).pkt.ip_dst = p.ip_dst) := by
  have t1 : (tcp_dnat_addr p a).pkt.src_port = p.src_port ∧
      (tcp_dnat_addr p a).pkt.dst_port = p.dst_port := by
    unfold tcp_dnat_addr; split <;> exact ⟨rfl, rfl⟩
  have t2 : (udp_dnat_addr p a).pkt.src_port = p.src_port ∧
      (udp_dnat_addr p a).pkt.dst_port = p.dst_port := by
    unfold udp_dnat_addr; split <;> exact ⟨rfl, rfl⟩
  have t3 : (icmp_dnat p a).pkt.src_port = p.src_port ∧
      (icmp_dnat p a).pkt.dst_port = p.dst_port := ⟨rfl, rfl⟩
  have t4 : (tcp_dnat_port p n).pkt.ip_src = p.ip_src ∧
      (tcp_dnat_port p n).pkt.ip_dst = p.ip_dst := by
    unfold tcp_dnat_port; split <;> exact ⟨rfl, rfl⟩
  have t5 : (udp_dnat_port p n).pkt.ip_src = p.ip_src ∧
      (udp_dnat_port p n).pkt.ip_dst = p.ip_dst := by
    unfold udp_dnat_port; split <;> exact ⟨rfl, rfl⟩
  refine ⟨?_, t1, t2, ⟨rfl, rfl⟩, t3, ?_, t4, t5⟩
  · unfold dnat_addr
    split
    · exact t1
    · split
      · exact t2
      · split
        · exact t3
        · exact ⟨rfl, rfl⟩
  · unfold dnat_port
    split
    · exact t4
    · split
      · exact t5
      · exact ⟨rfl, rfl⟩

/-! ## C11 -/

/-- C11: on a UDP packet the four UDP translators, and the dispatchers
`snat`/`dnat` that select them, complete and leave the stored UDP checksum
equal to its value before the call; after the socket and address rewrites
the stored IP checksum is the old one adjusted for the change of address. -/
theorem udp_checksum_is_never_updated (p : Packet) (s : Socket) (a n : Nat)
    (hudp : p.ip_protocol = Protocol.UDP) :
    ((udp_snat p s).status = Status.ok ∧
      (udp_snat p s).pkt.udp_checksum = p.udp_checksum ∧
      (udp_snat p s).pkt.ip_checksum = checksum_adjust32 p.ip_checksum p.ip_src s.address) ∧
    ((udp_dnat p s).status = Status.ok ∧
      (udp_dnat p s).pkt.udp_checksum = p.udp_checksum ∧
      (udp_dnat p s).pkt.ip_checksum = checksum_adjust32 p.ip_checksum p.ip_dst s.address) ∧
    ((udp_dnat_addr p a).status = Status.ok ∧
      (udp_dnat_addr p a).pkt.udp_checksum = p.udp_checksum ∧
      (udp_dnat_addr p a).pkt.ip_checksum = checksum_adjust32 p.ip_checksum p.ip_dst a) ∧
    ((udp_dnat_port p n).status = Status.ok ∧
      (udp_dnat_port p n).pkt.udp_checksum = p.udp_checksum) ∧
    (snat p s = udp_snat p s ∧ (snat p s).pkt.udp_checksum = p.udp_checksum) ∧
    (dnat p s = udp_dnat p s ∧ (dnat p s).pkt.udp_checksum = p.udp_checksum) ∧
    (dnat_addr p a = udp_dnat_addr p a ∧ (dnat_addr p a).pkt.udp_checksum = p.udp_checksum) ∧
    (dnat_port p n = udp_dnat_port p n ∧ (dnat_port p n).pkt.udp_checksum = p.udp_checksum) := by
  rw [snat_of_udp p s hudp, dnat_of_udp p s hudp, dnat_addr_of_udp p a hudp,
    dnat_port_of_udp p n hudp, udp_snat_of_udp p s hudp, udp_dnat_of_udp p s hudp,
    udp_dnat_addr_of_udp p a hudp, udp_dnat_port_of_udp p n hudp]
  exact ⟨⟨rfl, rfl, rfl⟩, ⟨rfl, rfl, rfl⟩, ⟨rfl, rfl, rfl⟩, ⟨rfl, rfl⟩, ⟨rfl, rfl⟩,
    ⟨rfl, rfl⟩, ⟨rfl, rfl⟩, ⟨rfl, rfl⟩⟩

/-- C11 at the UDP packet of the scenario: its UDP checksum 3594 stays, also
where the address 10.0.0.5 or 10.0.0.1 becomes 203.0.113.9. -/
theorem udp_checksum_is_never_updated_witness :
    ((udp_snat scenario_udp scenario_socket).status = Status.ok ∧
      (udp_snat scenario_udp scenario_socket).pkt.udp_checksum = scenario_udp.udp_checksum ∧
      (udp_snat scenario_udp scenario_socket).pkt.ip_checksum
        = checksum_adjust32 scenario_udp.ip_checksum scenario_udp.ip_src
            scenario_socket.address) ∧
    ((udp_dnat scenario_udp scenario_socket).status = Status.ok ∧
      (udp_dnat scenario_udp scenario_socket).pkt.udp_checksum = scenario_udp.udp_checksum ∧
      (udp_dnat scenario_udp scenario_socket).pkt.ip_checksum
        = checksum_adjust32 scenario_udp.ip_checksum scenario_udp.ip_dst
            scenario_socket.address) ∧
    ((udp_dnat_addr scenario_udp 158400715).status = Status.ok ∧
      (udp_dnat_addr scenario_udp 158400715).pkt.udp_checksum = scenario_udp.udp_checksum ∧
      (udp_dnat_addr scenario_udp 158400715).pkt.ip_checksum
        = checksum_adjust32 scenario_udp.ip_checksum scenario_udp.ip_dst 158400715) ∧
    ((udp_dnat_port scenario_udp 8080).status = Status.ok ∧
      (udp_dnat_port scenario_udp 8080).pkt.udp_checksum = scenario_udp.udp_checksum) ∧
    (snat scenario_udp scenario_socket = udp_snat scenario_udp scenario_socket ∧
      (snat scenario_udp scenario_socket).pkt.udp_checksum = scenario_udp.udp_checksum) ∧
    (dnat scenario_udp scenario_socket = udp_dnat scenario_udp scenario_socket ∧
      (dnat scenario_udp scenario_socket).pkt.udp_checksum = scenario_udp.udp_checksum) ∧
    (dnat_addr scenario_udp 158400715 = udp_dnat_addr scenario_udp 158400715 ∧
      (dnat_addr scenario_udp 158400715).pkt.udp_checksum = scenario_udp.udp_checksum) ∧
    (dnat_port scenario_udp 8080 = udp_dnat_port scenario_udp 8080 ∧
      (dnat_port scenario_udp 8080).pkt.udp_checksum = scenario_udp.udp_checksum) :=
  udp_checksum_is_never_updated scenario_udp scenario_socket 158400715 8080 (by decide)

/-! ## C12 -/

/-- C12: on a UDP packet the port-only rewrite `udp_dnat(uint16_t)`, also
when reached through the dispatcher `dnat(uint16_t)`, completes, stores the
new destination port and writes nothing else: source and destination
address, source port, IP checksum, UDP checksum and every other field keep
their values. -/
theorem udp_port_rewrite_changes_only_the_port (p : Packet) (n : Nat)
    (hudp : p.ip_protocol = Protocol.UDP) :
    udp_dnat_port p n = ⟨Status.ok, { p with dst_port := n }⟩ ∧
    dnat_port p n = ⟨Status.ok, { p with dst_port := n }⟩ ∧
    (udp_dnat_port p n).pkt.dst_port = n ∧
    (udp_dnat_port p n).pkt.ip_src = p.ip_src ∧
    (udp_dnat_port p n).pkt.ip_dst = p.ip_dst ∧
    (udp_dnat_port p n).pkt.src_port = p.src_port ∧
    (udp_dnat_port p n).pkt.ip_checksum = p.ip_checksum ∧
    (udp_dnat_port p n).pkt.udp_checksum = p.udp_checksum := by
  rw [dnat_port_of_udp p n hudp, udp_dnat_port_of_udp p n hudp]
  exact ⟨rfl, rfl, rfl, rfl, rfl, rfl, rfl, rfl⟩

/-- C12 at the UDP packet of the scenario, new destination port 8080. -/
theorem udp_port_rewrite_changes_only_the_port_witness :
    udp_dnat_port scenario_udp 8080 = ⟨Status.ok, { scenario_udp with dst_port := 8080 }⟩ ∧
    dnat_port scenario_udp 8080 = ⟨Status.ok, { scenario_udp with dst_port := 8080 }⟩ ∧
    (udp_dnat_port scenario_udp 8080).pkt.dst_port = 8080 ∧
    (udp_dnat_port scenario_udp 8080).pkt.ip_src = scenario_udp.ip_src ∧
    (udp_dnat_port scenario_udp 8080).pkt.ip_dst = scenario_udp.ip_dst ∧
    (udp_dnat_port scenario_udp 8080).pkt.src_port = scenario_udp.src_port ∧
    (udp_dnat_port scenario_udp 8080).pkt.ip_checksum = scenario_udp.ip_checksum ∧
    (udp_dnat_port scenario_udp 8080).pkt.udp_checksum = scenario_udp.udp_checksum :=
  udp_port_rewrite_changes_only_the_port scenario_udp 8080 (by decide)

/-! ## C13 -/

theorem fold16_form (c : Nat) (hc : c ≤ 65535) : c = 65535 - fold16 (65535 - c) := by
  rw [fold16_of_le _ (by omega)]; omega

theorem checksum_adjust16_comm (c m1 n1 m2 n2 : Nat) (hc : c ≤ 65535)
    (hm1 : m1 ≤ 65535) (hn1 : n1 ≤ 65535) (hm2 : m2 ≤ 65535) (hn2 : n2 ≤ 65535) :
    checksum_adjust16 (checksum_adjust16 c m1 n1) m2 n2
      = checksum_adjust16 (checksum_adjust16 c m2 n2) m1 n1 := by
  rw [fold16_form c hc]
  rw [checksum_adjust16_fold _ m1 n1 hm1 hn1, checksum_adjust16_fold _ m2 n2 hm2 hn2,
    checksum_adjust16_fold _ m2 n2 hm2 hn2, checksum_adjust16_fold _ m1 n1 hm1 hn1]
  exact compl_fold16_congr _ _ (by omega)

/-- C13: for a 16-bit checksum and two 32-bit values, adjusting for the high
word and feeding the result into the adjustment for the low word gives the
same checksum as adjusting for the low word first and then for the high
word, and both are the 32-bit adjustment used for addresses. -/
theorem word_order_does_not_matter (c old_value new_value : Nat) (hc : c < 65536)
    (ho : old_value < 4294967296) (hn : new_value < 4294967296) :
    checksum_adjust16 (checksum_adjust16 c (old_value / 65536) (new_value / 65536))
        (old_value % 65536) (new_value % 65536)
      = checksum_adjust16 (checksum_adjust16 c (old_value % 65536) (new_value % 65536))
          (old_value / 65536) (new_value / 65536) ∧
    checksum_adjust16 (checksum_adjust16 c (old_value / 65536) (new_value / 65536))
        (old_value % 65536) (new_value % 65536)
      = checksum_adjust32 c old_value new_value ∧
    checksum_adjust16 (checksum_adjust16 c (old_value % 65536) (new_value % 65536))
        (old_value / 65536) (new_value / 65536)
      = checksum_adjust32 c old_value new_value := by
  have e := checksum_adjust16_comm c (old_value / 65536) (new_value / 65536)
    (old_value % 65536) (new_value % 65536) (by omega) (by omega) (by omega) (by omega)
    (by omega)
  have h1 : old_value / 65536 % 65536 = old_value / 65536 := by omega
  have h2 : new_value / 65536 % 65536 = new_value / 65536 := by omega
  have e32 : checksum_adjust32 c old_value new_value
      = checksum_adjust16 (checksum_adjust16 c (old_value % 65536) (new_value % 65536))
          (old_value / 65536) (new_value / 65536) := by
    unfold checksum_adjust32; rw [h1, h2]
  exact ⟨e, by rw [e32]; exact e, e32.symm⟩

/-- C13 at the IP checksum of the scenario, source address 10.0.0.5 replaced
by 203.0.113.9. -/
theorem word_order_does_not_matter_witness :
    checksum_adjust16 (checksum_adjust16 47346 (83886090 / 65536) (158400715 / 65536))
        (83886090 % 65536) (158400715 % 65536)
      = checksum_adjust16 (checksum_adjust16 47346 (83886090 % 65536) (158400715 % 65536))
          (83886090 / 65536) (158400715 / 65536) ∧
    checksum_adjust16 (checksum_adjust16 47346 (83886090 / 65536) (158400715 / 65536))
        (83886090 % 65536) (158400715 % 65536)
      = checksum_adjust32 47346 83886090 158400715 ∧
    checksum_adjust16 (checksum_adjust16 47346 (83886090 % 65536) (158400715 % 65536))
        (83886090 / 65536) (158400715 / 65536)
      = checksum_adjust32 47346 83886090 158400715 :=
  word_order_does_not_matter 47346 83886090 158400715 (by decide) (by decide) (by decide)

/-! ## C14 -/

/-- C14: on every packet, in particular on every ICMPv4 packet, `icmp_snat`
completes, stores the new source address, stores the IP checksum adjusted
for the change of source address, and leaves every other field as it was:
destination address, protocol tag, the other header fields, and the
transport fields that hold the ICMP message with its checksum.  Putting the
old source address and IP checksum back gives the original packet.
`icmp_dnat` does the same with the destination address. -/
theorem icmp_rewrite_touches_address_and_ip_checksum_only (p : Packet) (a : Nat) :
    ((icmp_snat p a).status = Status.ok ∧ (icmp_snat p a).pkt.ip_src = a ∧
      (icmp_snat p a).pkt.ip_checksum = checksum_adjust32 p.ip_checksum p.ip_src a ∧
      (icmp_snat p a).pkt.ip_dst = p.ip_dst ∧
      (icmp_snat p a).pkt.l4_checksum = p.l4_checksum ∧
      (icmp_snat p a).pkt.ip_protocol = p.ip_protocol ∧
      (icmp_snat p a).pkt.l4_rest = p.l4_rest ∧
      { (icmp_snat p a).pkt with ip_src := p.ip_src, ip_checksum := p.ip_checksum } = p) ∧
    ((icmp_dnat p a).status = Status.ok ∧ (icmp_dnat p a).pkt.ip_dst = a ∧
      (icmp_dnat p a).pkt.ip_checksum = checksum_adjust32 p.ip_checksum p.ip_dst a ∧
      (icmp_dnat p a).pkt.ip_src = p.ip_src ∧
      (icmp_dnat p a).pkt.l4_checksum = p.l4_checksum ∧
      (icmp_dnat p a).pkt.ip_protocol = p.ip_protocol ∧
      (icmp_dnat p a).pkt.l4_rest = p.l4_rest ∧
      { (icmp_dnat p a).pkt with ip_dst := p.ip_dst, ip_checksum := p.ip_checksum } = p) :=
  ⟨⟨rfl, rfl, rfl, rfl, rfl, rfl, rfl, rfl⟩, ⟨rfl, rfl, rfl, rfl, rfl, rfl, rfl, rfl⟩⟩

/-! ## C15 -/

/-- C15: the four dispatchers complete on every packet and for every
replacement value; on a TCP packet each gives the outcome of the `tcp_`
translator called directly, on a UDP packet that of the `udp_` translator,
and on an ICMPv4 packet `dnat(Addr)` gives the outcome of `icmp_dnat`. -/
theorem dispatchers_never_trip_a_precondition (p : Packet) (s : Socket) (a n : Nat) :
    ((snat p s).status = Status.ok ∧ (dnat p s).status = Status.ok ∧
      (dnat_addr p a).status = Status.ok ∧ (dnat_port p n).status = Status.ok) ∧
    (p.ip_protocol = Protocol.TCP →
      snat p s = tcp_snat p s ∧ dnat p s = tcp_dnat p s ∧
      dnat_addr p a = tcp_dnat_addr p a ∧ dnat_port p n = tcp_dnat_port p n) ∧
    (p.ip_protocol = Protocol.UDP →
      snat p s = udp_snat p s ∧ dnat p s = udp_dnat p s ∧
      dnat_addr p a = udp_dnat_addr p a ∧ dnat_port p n = udp_dnat_port p n) ∧
    (p.ip_protocol = Protocol.ICMPv4 → dnat_addr p a = icmp_dnat p a) :=
  ⟨⟨status_snat p s, status_dnat p s, status_dnat_addr p a, status_dnat_port p n⟩,
    fun h => ⟨snat_of_tcp p s h, dnat_of_tcp p s h, dnat_addr_of_tcp p a h,
      dnat_port_of_tcp p n h⟩,
    fun h => ⟨snat_of_udp p s h, dnat_of_udp p s h, dnat_addr_of_udp p a h,
      dnat_port_of_udp p n h⟩,
    fun h => dnat_addr_of_icmp p a h⟩

/-- C15 at the TCP, UDP and ICMPv4 packets of the scenario: the dispatchers
complete and agree with the translator of the protocol. -/
theorem dispatchers_never_trip_a_precondition_witness :
    ((snat scenario_tcp scenario_socket).status = Status.ok ∧
      (dnat scenario_tcp scenario_socket).status = Status.ok ∧
      (dnat_addr scenario_tcp 158400715).status = Status.ok ∧
      (dnat_port scenario_tcp 8080).status = Status.ok) ∧
    (snat scenario_tcp scenario_socket = tcp_snat scenario_tcp scenario_socket ∧
      dnat scenario_tcp scenario_socket = tcp_dnat scenario_tcp scenario_socket ∧
      dnat_addr scenario_tcp 158400715 = tcp_dnat_addr scenario_tcp 158400715 ∧
      dnat_port scenario_tcp 8080 = tcp_dnat_port scenario_tcp 8080) ∧
    (snat scenario_udp scenario_socket = udp_snat scenario_udp scenario_socket ∧
      dnat scenario_udp scenario_socket = udp_dnat scenario_udp scenario_socket ∧
      dnat_addr scenario_udp 158400715 = udp_dnat_addr scenario_udp 158400715 ∧
      dnat_port scenario_udp 8080 = udp_dnat_port scenario_udp 8080) ∧
    dnat_addr scenario_icmp 158400715 = icmp_dnat scenario_icmp 158400715 :=
  ⟨(dispatchers_never_trip_a_precondition scenario_tcp scenario_socket 158400715 8080).1,
    (dispatchers_never_trip_a_precondition scenario_tcp scenario_socket 158400715 8080).2.1
      (by decide),
    (dispatchers_never_trip_a_precondition scenario_udp scenario_socket 158400715 8080).2.2.1
      (by decide),
    (dispatchers_never_trip_a_precondition scenario_icmp scenario_socket 158400715 8080).2.2.2
      (by decide)⟩

/-! ## C16 -/

/-- C16: `tcp_dnat(Addr)` followed by `tcp_dnat(uint16_t)` gives exactly the
outcome of `tcp_dnat(Socket)` with that address and port, in every field, the
IP checksum and the TCP checksum, and on a TCP packet all three calls
complete; likewise `udp_dnat(Addr)` followed by `udp_dnat(uint16_t)` and
`udp_dnat(Socket)` on a UDP packet. -/
theorem socket_rewrite_is_address_then_port (p : Packet) (a n : Nat) :
    (p.ip_protocol = Protocol.TCP →
      (tcp_dnat_addr p a).status = Status.ok ∧
      (tcp_dnat p ⟨a, n⟩).status = Status.ok ∧
      tcp_dnat_port (tcp_dnat_addr p a).pkt n = tcp_dnat p ⟨a, n⟩) ∧
    (p.ip_protocol = Protocol.UDP →
      (udp_dnat_addr p a).status = Status.ok ∧
      (udp_dnat p ⟨a, n⟩).status = Status.ok ∧
      udp_dnat_port (udp_dnat_addr p a).pkt n = udp_dnat p ⟨a, n⟩) := by
  constructor
  · intro h
    have e1 := tcp_dnat_addr_of_tcp p a h
    have hq : (tcp_dnat_addr p a).pkt.ip_protocol = Protocol.TCP := by rw [e1]; exact h
    refine ⟨by rw [e1], by rw [tcp_dnat_of_tcp p ⟨a, n⟩ h], ?_⟩
    rw [tcp_dnat_port_of_tcp _ n hq, tcp_dnat_of_tcp p ⟨a, n⟩ h, e1]
  · intro h
    have e1 := udp_dnat_addr_of_udp p a h
    have hq : (udp_dnat_addr p a).pkt.ip_protocol = Protocol.UDP := by rw [e1]; exact h
    refine ⟨by rw [e1], by rw [udp_dnat_of_udp p ⟨a, n⟩ h], ?_⟩
    rw [udp_dnat_port_of_udp _ n hq, udp_dnat_of_udp p ⟨a, n⟩ h, e1]

/-- C16 at the TCP and UDP packets of the scenario, destination socket
203.0.113.9:8080. -/
theorem socket_rewrite_is_address_then_port_witness :
    ((tcp_dnat_addr scenario_tcp 158400715).status = Status.ok ∧
      (tcp_dnat scenario_tcp ⟨158400715, 8080⟩).status = Status.ok ∧
      tcp_dnat_port (tcp_dnat_addr scenario_tcp 158400715).pkt 8080
        = tcp_dnat scenario_tcp ⟨158400715, 8080⟩) ∧
    ((udp_dnat_addr scenario_udp 158400715).status = Status.ok ∧
      (udp_dnat scenario_udp ⟨158400715, 8080⟩).status = Status.ok ∧
      udp_dnat_port (udp_dnat_addr scenario_udp 158400715).pkt 8080
        = udp_dnat scenario_udp ⟨158400715, 8080⟩) :=
  ⟨(socket_rewrite_is_address_then_port scenario_tcp 158400715 8080).1 (by decide),
    (socket_rewrite_is_address_then_port scenario_udp 158400715 8080).2 (by decide)⟩

/-! ## C17 -/

theorem checksum_adjust32_comm (c o1 n1 o2 n2 : Nat) (hc : c ≤ 65535) :
    checksum_adjust32 (checksum_adjust32 c o1 n1) o2 n2
      = checksum_adjust32 (checksum_adjust32 c o2 n2) o1 n1 := by
  rw [fold16_form c hc]
  rw [checksum_adjust32_fold _ o1 n1, checksum_adjust32_fold _ o2 n2,
    checksum_adjust32_fold _ o2 n2, checksum_adjust32_fold _ o1 n1]
  exact compl_fold16_congr _ _ (by omega)

theorem checksum_adjust_socket_comm (c o1 n1 m1 k1 o2 n2 m2 k2 : Nat) (hc : c ≤ 65535)
    (hm1 : m1 ≤ 65535) (hk1 : k1 ≤ 65535) (hm2 : m2 ≤ 65535) (hk2 : k2 ≤ 65535) :
    checksum_adjust16 (checksum_adjust32
        (checksum_adjust16 (checksum_adjust32 c o1 n1) m1 k1) o2 n2) m2 k2
      = checksum_adjust16 (checksum_adjust32
          (checksum_adjust16 (checksum_adjust32 c o2 n2) m2 k2) o1 n1) m1 k1 := by
  rw [fold16_form c hc]
  rw [checksum_adjust32_fold _ o1 n1, checksum_adjust16_fold _ m1 k1 hm1 hk1,
    checksum_adjust32_fold _ o2 n2, checksum_adjust16_fold _ m2 k2 hm2 hk2,
    checksum_adjust32_fold _ o2 n2, checksum_adjust16_fold _ m2 k2 hm2 hk2,
    checksum_adjust32_fold _ o1 n1, checksum_adjust16_fold _ m1 k1 hm1 hk1]
  exact compl_fold16_congr _ _ (by omega)

/-- C17: on every packet, in particular every TCP or UDP packet, the
dispatchers `snat` and `dnat` with sockets complete, and `snat` followed by
`dnat` gives exactly the outcome of `dnat` followed by `snat`: the same
fields, the same IP checksum and the same transport checksum. -/
theorem snat_and_dnat_commute (p : Packet) (s d : Socket) (hp : p.wf) :
    (snat p s).status = Status.ok ∧ (dnat p d).status = Status.ok ∧
    dnat (snat p s).pkt d = snat (dnat p d).pkt s := by
  obtain ⟨_, _, _, _, _, _, _, _, h9, _, _, _, _, _, h15, _⟩ := hp
  refine ⟨status_snat p s, status_dnat p d, ?_⟩
  have b1 := htons_lt p.src_port
  have b2 := htons_lt p.dst_port
  have b3 := htons_lt s.port
  have b4 := htons_lt d.port
  by_cases h : p.ip_protocol = Protocol.TCP
  · have h1 : (snat p s).pkt.ip_protocol = Protocol.TCP := by
      rw [snat_of_tcp p s h, tcp_snat_of_tcp p s h]; exact h
    have h2 : (dnat p d).pkt.ip_protocol = Protocol.TCP := by
      rw [dnat_of_tcp p d h, tcp_dnat_of_tcp p d h]; exact h
    rw [dnat_of_tcp _ d h1, tcp_dnat_of_tcp _ d h1, snat_of_tcp _ s h2,
      tcp_snat_of_tcp _ s h2, snat_of_tcp p s h, tcp_snat_of_tcp p s h,
      dnat_of_tcp p d h, tcp_dnat_of_tcp p d h]
    refine congrArg (Outcome.mk Status.ok) ?_
    apply Packet.ext <;> simp only []
    · exact checksum_adjust32_comm p.ip_checksum p.ip_src s.address p.ip_dst d.address
        (by omega)
    · exact checksum_adjust_socket_comm p.l4_checksum p.ip_src s.address (htons p.src_port)
        (htons s.port) p.ip_dst d.address (htons p.dst_port) (htons d.port)
        (by omega) (by omega) (by omega) (by omega) (by omega)
  · by_cases hu : p.ip_protocol = Protocol.UDP
    · have h1 : (snat p s).pkt.ip_protocol = Protocol.UDP := by
        rw [snat_of_udp p s hu, udp_snat_of_udp p s hu]; exact hu
      have h2 : (dnat p d).pkt.ip_protocol = Protocol.UDP := by
        rw [dnat_of_udp p d hu, udp_dnat_of_udp p d hu]; exact hu
      rw [dnat_of_udp _ d h1, udp_dnat_of_udp _ d h1, snat_of_udp _ s h2,
        udp_snat_of_udp _ s h2, snat_of_udp p s hu, udp_snat_of_udp p s hu,
        dnat_of_udp p d hu, udp_dnat_of_udp p d hu]
      refine congrArg (Outcome.mk Status.ok) ?_
      apply Packet.ext <;> simp only []
      exact checksum_adjust32_comm p.ip_checksum p.ip_src s.address p.ip_dst d.address
        (by omega)
    · have e1 : snat p s = ⟨Status.ok, p⟩ := by
        unfold snat; rw [if_neg h, if_neg hu]
      have e2 : dnat p d = ⟨Status.ok, p⟩ := by
        unfold dnat; rw [if_neg h, if_neg hu]
      rw [e1, e2]
      exact e1.symm

/-- C17 at the TCP packet of the scenario: source socket 203.0.113.9:50000
and destination socket 10.0.0.5:8080, in both orders. -/
theorem snat_and_dnat_commute_witness :
    (snat scenario_tcp scenario_socket).status = Status.ok ∧
    (dnat scenario_tcp ⟨83886090, 8080⟩).status = Status.ok ∧
    dnat (snat scenario_tcp scenario_socket).pkt ⟨83886090, 8080⟩
      = snat (dnat scenario_tcp ⟨83886090, 8080⟩).pkt scenario_socket :=
  snat_and_dnat_commute scenario_tcp scenario_socket ⟨83886090, 8080⟩ (by decide)

/-! ## C18 -/

theorem dnat_keeps_source (p : Packet) (d : Socket) : (dnat p d).pkt.source = p.source := by
  by_cases h : p.ip_protocol = Protocol.TCP
  · rw [dnat_of_tcp p d h, tcp_dnat_of_tcp p d h]; rfl
  · by_cases hu : p.ip_protocol = Protocol.UDP
    · rw [dnat_of_udp p d hu, udp_dnat_of_udp p d hu]; rfl
    · rw [(dispatchers_of_other p d 0 h hu).2.1]

theorem dnat_port_keeps_source_and_address (p : Packet) (n : Nat) :
    (dnat_port p n).pkt.source = p.source ∧ (dnat_port p n).pkt.ip_dst = p.ip_dst := by
  by_cases h : p.ip_protocol = Protocol.TCP
  · rw [dnat_port_of_tcp p n h, tcp_dnat_port_of_tcp p n h]; exact ⟨rfl, rfl⟩
  · by_cases hu : p.ip_protocol = Protocol.UDP
    · rw [dnat_port_of_udp p n hu, udp_dnat_port_of_udp p n hu]; exact ⟨rfl, rfl⟩
    · rw [(dispatchers_of_other p ⟨0, 0⟩ n h hu).2.2]; exact ⟨rfl, rfl⟩

theorem dnat_addr_keeps_source_and_port (p : Packet) (a : Nat) :
    (dnat_addr p a).pkt.source = p.source ∧ (dnat_addr p a).pkt.dst_port = p.dst_port := by
  by_cases h : p.ip_protocol = Protocol.TCP
  · rw [dnat_addr_of_tcp p a h, tcp_dnat_addr_of_tcp p a h]; exact ⟨rfl, rfl⟩
  · by_cases hu : p.ip_protocol = Protocol.UDP
    · rw [dnat_addr_of_udp p a hu, udp_dnat_addr_of_udp p a hu]; exact ⟨rfl, rfl⟩
    · by_cases hi : p.ip_protocol = Protocol.ICMPv4
      · rw [dnat_addr_of_icmp p a hi]; exact ⟨rfl, rfl⟩
      · rw [dnat_addr_of_other p a h hu hi]; exact ⟨rfl, rfl⟩

/-- C18 as stated fails for the packets the dispatchers do not handle: on the
ICMPv4 packet of the scenario `dnat` with the socket 203.0.113.9:50000 and
`dnat` with port 8080 leave the destination 10.0.0.1 and the port field as
they were, and so does `dnat` with the address on the GRE packet. -/
theorem dnat_does_not_set_unsupported :
    (dnat scenario_icmp scenario_socket).pkt.destination ≠ scenario_socket ∧
    (dnat scenario_icmp scenario_socket).pkt.destination = scenario_icmp.destination ∧
    (dnat_port scenario_icmp 8080).pkt.dst_port ≠ 8080 ∧
    (dnat_addr scenario_gre 158400715).pkt.ip_dst ≠ 158400715 := by
  decide

/-- C18, amended: on a TCP or UDP packet `snat` with a socket stores the
socket as source and leaves destination address and port as they were, and
`dnat` stores the socket, resp. the port, as destination; on a TCP, UDP or
ICMPv4 packet `dnat` with an address stores it as destination address.  On
every packet `dnat` with a socket, an address or a port leaves source address
and source port as they were, `dnat` with an address leaves the destination
port and `dnat` with a port the destination address as it was; and on a
packet of a protocol it does not handle `dnat` leaves the destination as it
was. -/
theorem each_direction_writes_its_own_side (p : Packet) (s d : Socket) (a n : Nat) :
    (p.ip_protocol = Protocol.TCP ∨ p.ip_protocol = Protocol.UDP →
      (snat p s).pkt.source = s ∧ (snat p s).pkt.destination = p.destination ∧
      (dnat p d).pkt.destination = d ∧ (dnat_port p n).pkt.dst_port = n) ∧
    (p.ip_protocol = Protocol.TCP ∨ p.ip_protocol = Protocol.UDP ∨
        p.ip_protocol = Protocol.ICMPv4 →
      (dnat_addr p a).pkt.ip_dst = a) ∧
    ((dnat p d).pkt.source = p.source ∧ (dnat_addr p a).pkt.source = p.source ∧
      (dnat_port p n).pkt.source = p.source) ∧
    ((dnat_addr p a).pkt.dst_port = p.dst_port ∧ (dnat_port p n).pkt.ip_dst = p.ip_dst) ∧
    (p.ip_protocol ≠ Protocol.TCP → p.ip_protocol ≠ Protocol.UDP →
      (dnat p d).pkt.destination = p.destination ∧
      (dnat_port p n).pkt.dst_port = p.dst_port ∧
      (p.ip_protocol ≠ Protocol.ICMPv4 → (dnat_addr p a).pkt.ip_dst = p.ip_dst)) := by
  refine ⟨?_, ?_, ⟨dnat_keeps_source p d, (dnat_addr_keeps_source_and_port p a).1,
    (dnat_port_keeps_source_and_address p n).1⟩,
    ⟨(dnat_addr_keeps_source_and_port p a).2, (dnat_port_keeps_source_and_address p n).2⟩, ?_⟩
  · intro h
    rcases h with h | h
    · rw [snat_of_tcp p s h, tcp_snat_of_tcp p s h, dnat_of_tcp p d h, tcp_dnat_of_tcp p d h,
        dnat_port_of_tcp p n h, tcp_dnat_port_of_tcp p n h]
      exact ⟨rfl, rfl, rfl, rfl⟩
    · rw [snat_of_udp p s h, udp_snat_of_udp p s h, dnat_of_udp p d h, udp_dnat_of_udp p d h,
        dnat_port_of_udp p n h, udp_dnat_port_of_udp p n h]
      exact ⟨rfl, rfl, rfl, rfl⟩
  · intro h
    rcases h with h | h | h
    · rw [dnat_addr_of_tcp p a h, tcp_dnat_addr_of_tcp p a h]
    · rw [dnat_addr_of_udp p a h, udp_dnat_addr_of_udp p a h]
    · rw [dnat_addr_of_icmp p a h]; rfl
  · intro h1 h2
    rw [(dispatchers_of_other p d n h1 h2).2.1, (dispatchers_of_other p d n h1 h2).2.2]
    refine ⟨rfl, rfl, ?_⟩
    intro h3
    rw [dnat_addr_of_other p a h1 h2 h3]

/-- C18, amended, at the TCP packet of the scenario (source socket
203.0.113.9:50000, destination socket 10.0.0.5:8080) and, for the protocols
the dispatchers do not handle, at the GRE packet. -/
theorem each_direction_writes_its_own_side_witness :
    ((snat scenario_tcp scenario_socket).pkt.source = scenario_socket ∧
      (snat scenario_tcp scenario_socket).pkt.destination = scenario_tcp.destination ∧
      (dnat scenario_tcp ⟨83886090, 8080⟩).pkt.destination = ⟨83886090, 8080⟩ ∧
      (dnat_port scenario_tcp 8080).pkt.dst_port = 8080) ∧
    (dnat_addr scenario_tcp 158400715).pkt.ip_dst = 158400715 ∧
    ((dnat scenario_tcp ⟨83886090, 8080⟩).pkt.source = scenario_tcp.source ∧
      (dnat_addr scenario_tcp 158400715).pkt.source = scenario_tcp.source ∧
      (dnat_port scenario_tcp 8080).pkt.source = scenario_tcp.source) ∧
    ((dnat_addr scenario_tcp 158400715).pkt.dst_port = scenario_tcp.dst_port ∧
      (dnat_port scenario_tcp 8080).pkt.ip_dst = scenario_tcp.ip_dst) ∧
    ((dnat scenario_gre ⟨83886090, 8080⟩).pkt.destination = scenario_gre.destination ∧
      (dnat_port scenario_gre 8080).pkt.dst_port = scenario_gre.dst_port ∧
      (dnat_addr scenario_gre 158400715).pkt.ip_dst = scenario_gre.ip_dst) :=
  have ht := each_direction_writes_its_own_side scenario_tcp scenario_socket
    ⟨83886090, 8080⟩ 158400715 8080
  have hg := each_direction_writes_its_own_side scenario_gre scenario_socket
    ⟨83886090, 8080⟩ 158400715 8080
  ⟨ht.1 (Or.inl (by decide)), ht.2.1 (Or.inl (by decide)), ht.2.2.1, ht.2.2.2.1,
    (hg.2.2.2.2 (by decide) (by decide)).1, (hg.2.2.2.2 (by decide) (by decide)).2.1,
    (hg.2.2.2.2 (by decide) (by decide)).2.2 (by decide)⟩

end nat
end net
